import Mathlib

set_option maxRecDepth 100000

/-!
Verification development for the Rune Relic deterministic simulation core.

The Rust sources under `rune-relic-server/src` are shallowly embedded:
machine integers become `Int`/`Nat` with explicit two's-complement wrapping
(`wrap32`, `wrap64`), `BTreeMap` becomes a key-sorted association list, and
fallible operations return `Option`.  SHA-256 is implemented concretely so
that hash-dependent claims can be evaluated.
-/

namespace RuneRelic

/-! ## Two's-complement helpers -/

/-- Interpret an arbitrary integer as a wrapped signed 32-bit value
(two's complement, range `[-2^31, 2^31)`). -/
def wrap32 (x : Int) : Int := (x + 2147483648) % 4294967296 - 2147483648

/-- Interpret an arbitrary integer as a wrapped signed 64-bit value. -/
def wrap64 (x : Int) : Int :=
  (x + 9223372036854775808) % 18446744073709551616 - 9223372036854775808

/-- Wrapped signed 8-bit value (u8 wrapping subtraction uses this). -/
def wrapU8 (x : Int) : Nat := (x % 256).toNat

/-! ## Q16.16 fixed-point core (`core/fixed.rs`) -/

/-- 1.0 in fixed point. -/
def FIXED_ONE : Int := 65536

/-- 0.5 in fixed point. -/
def FIXED_HALF : Int := 32768

/-- Tick duration: round(65536/60). -/
def TICK_DURATION : Int := 1092

/-- Arena half width: 50.0. -/
def ARENA_HALF_WIDTH : Int := 3276800

/-- Arena half height: 50.0. -/
def ARENA_HALF_HEIGHT : Int := 3276800

/-- Form speeds by tier (`FORM_SPEEDS`). -/
def FORM_SPEEDS : List Int := [393216, 360448, 327680, 294912, 262144]

/-- Form radii by tier (`FORM_RADII`). -/
def FORM_RADII : List Int := [32768, 45875, 65536, 91750, 131072]

/-- Score thresholds for evolution (`SCORE_TO_EVOLVE`). -/
def SCORE_TO_EVOLVE : List Nat := [100, 300, 600, 1000]

/-- Points per player eliminated. -/
def SCORE_PER_KILL : Nat := 100

/-- Int-point multiply: widen to i64, multiply, arithmetic shift right by
16, truncate back to i32 (`fixed_mul`). -/
def fixed_mul (a b : Int) : Int := wrap32 ((a * b) >>> 16)

/-- Int-point divide: pre-shift the numerator by 16, i64 division
truncating toward zero, truncate to i32; division by zero returns zero
(`fixed_div`). -/
def fixed_div (a b : Int) : Int :=
  if b = 0 then 0 else wrap32 (Int.tdiv (a * 2 ^ 16) b)

/-- One Newton-Raphson step of `fixed_sqrt`: `guess = (guess + x/guess) / 2`
with i32 wrapping on the addition, and a guard keeping the guess nonzero. -/
def sqrtStep (x g : Int) : Int :=
  let g2 := (wrap32 (g + fixed_div x g)) >>> 1
  if g2 = 0 then 1 else g2

/-- Int-point square root (`fixed_sqrt`): zero for non-positive input,
otherwise exactly six Newton-Raphson iterations from `max (x >> 1) 1`. -/
def fixed_sqrt (x : Int) : Int :=
  if x ≤ 0 then 0
  else (List.range 6).foldl (fun g _ => sqrtStep x g) (max (x >>> 1) 1)

/-- Absolute value with i32 wrapping negation (`fixed_abs`). -/
def fixed_abs (x : Int) : Int := if x < 0 then wrap32 (-x) else x

/-- Minimum (`fixed_min`). -/
def fixed_min (a b : Int) : Int := if a < b then a else b

/-- Maximum (`fixed_max`). -/
def fixed_max (a b : Int) : Int := if a > b then a else b

/-- Clamp to a range (`fixed_clamp`). -/
def fixed_clamp (value lo hi : Int) : Int :=
  fixed_max lo (fixed_min hi value)

/-- i32 saturating subtraction (Rust `i32::saturating_sub`). -/
def satSub32 (a b : Int) : Int :=
  let r := a - b
  if r < -(2 ^ 31) then -(2 ^ 31) else if r > 2 ^ 31 - 1 then 2 ^ 31 - 1 else r

/-- i32 saturating addition (Rust `i32::saturating_add`). -/
def satAdd32 (a b : Int) : Int :=
  let r := a + b
  if r < -(2 ^ 31) then -(2 ^ 31) else if r > 2 ^ 31 - 1 then 2 ^ 31 - 1 else r

/-- u32 saturating addition (Rust `u32::saturating_add`). -/
def satAddU32 (a b : Nat) : Nat := min (a + b) (2 ^ 32 - 1)

/-! ## Int-point 2D vector (`core/vec2.rs`) -/

/-- 2D vector with fixed-point components. -/
structure FixedVec2 where
  x : Int
  y : Int
deriving DecidableEq, Repr

namespace FixedVec2

/-- Zero vector. -/
def ZERO : FixedVec2 := ⟨0, 0⟩

/-- Component-wise wrapping addition. -/
def add (a b : FixedVec2) : FixedVec2 :=
  ⟨wrap32 (a.x + b.x), wrap32 (a.y + b.y)⟩

/-- Component-wise wrapping subtraction. -/
def sub (a b : FixedVec2) : FixedVec2 :=
  ⟨wrap32 (a.x - b.x), wrap32 (a.y - b.y)⟩

/-- Scale by a fixed-point scalar. -/
def scale (v : FixedVec2) (s : Int) : FixedVec2 :=
  ⟨fixed_mul v.x s, fixed_mul v.y s⟩

/-- Divide both components by a fixed-point scalar. -/
def div_scalar (v : FixedVec2) (s : Int) : FixedVec2 :=
  ⟨fixed_div v.x s, fixed_div v.y s⟩

/-- Squared length, with wrapping addition of the component squares. -/
def length_squared (v : FixedVec2) : Int :=
  wrap32 (fixed_mul v.x v.x + fixed_mul v.y v.y)

/-- Length via `fixed_sqrt`. -/
def length (v : FixedVec2) : Int := fixed_sqrt v.length_squared

/-- Squared distance between two points. -/
def distance_squared (a b : FixedVec2) : Int :=
  let dx := wrap32 (a.x - b.x)
  let dy := wrap32 (a.y - b.y)
  wrap32 (fixed_mul dx dx + fixed_mul dy dy)

/-- Distance between two points. -/
def distance (a b : FixedVec2) : Int := fixed_sqrt (a.distance_squared b)

/-- Normalize to unit length; the zero-length vector maps to `ZERO`. -/
def normalize (v : FixedVec2) : FixedVec2 :=
  let len := v.length
  if len = 0 then ZERO else v.div_scalar len

/-- Dot product. -/
def dot (a b : FixedVec2) : Int :=
  wrap32 (fixed_mul a.x b.x + fixed_mul a.y b.y)

end FixedVec2

/-! ## M31 field encoding (`core/hash.rs`, lines 147-189) -/

/-- Mersenne-31 prime. -/
def M31_PRIME : Nat := 2147483647

/-- Bias used when encoding signed values into the M31 field. -/
def M31_BIAS : Int := 2 ^ 30

/-- Encode a signed `Int` to an M31 element: add the bias in i64 and
truncate to u32 (`encode_fixed_to_m31`, release semantics). -/
def encode_fixed_to_m31 (value : Int) : Nat :=
  ((value + M31_BIAS) % 4294967296).toNat

/-- Decode an M31 element back to a signed `Int`
(`decode_m31_to_fixed`). -/
def decode_m31_to_fixed (encoded : Nat) : Int :=
  wrap32 ((encoded : Int) - M31_BIAS)

/-! ## SHA-256

The repository hashes with the external `sha2` crate.  The crate is modelled
here by a concrete FIPS 180-4 implementation over byte lists (`List Nat`,
entries 0..255), written with structural recursion so the kernel can
evaluate digests. -/

namespace Sha256


/-- Addition modulo 2^32. -/
def add32 (a b : Nat) : Nat := (a + b) % 4294967296

/-- Right rotation of a 32-bit word. -/
def rotr (n x : Nat) : Nat := ((x >>> n) ||| (x <<< (32 - n))) % 4294967296

def bigSigma0 (x : Nat) : Nat := Nat.xor (rotr 2 x) (Nat.xor (rotr 13 x) (rotr 22 x))
def bigSigma1 (x : Nat) : Nat := Nat.xor (rotr 6 x) (Nat.xor (rotr 11 x) (rotr 25 x))
def smallSigma0 (x : Nat) : Nat := Nat.xor (rotr 7 x) (Nat.xor (rotr 18 x) (x >>> 3))
def smallSigma1 (x : Nat) : Nat := Nat.xor (rotr 17 x) (Nat.xor (rotr 19 x) (x >>> 10))
def chFn (x y z : Nat) : Nat := Nat.xor (Nat.land x y) (Nat.land (Nat.xor x 4294967295) z)
def majFn (x y z : Nat) : Nat :=
  Nat.xor (Nat.land x y) (Nat.xor (Nat.land x z) (Nat.land y z))

def K : List Nat :=
  [1116352408, 1899447441, 3049323471, 3921009573, 961987163, 1508970993,
   2453635748, 2870763221, 3624381080, 310598401, 607225278, 1426881987,
   1925078388, 2162078206, 2614888103, 3248222580, 3835390401, 4022224774,
   264347078, 604807628, 770255983, 1249150122, 1555081692, 1996064986,
   2554220882, 2821834349, 2952996808, 3210313671, 3336571891, 3584528711,
   113926993, 338241895, 666307205, 773529912, 1294757372, 1396182291,
   1695183700, 1986661051, 2177026350, 2456956037, 2730485921, 2820302411,
   3259730800, 3345764771, 3516065817, 3600352804, 4094571909, 275423344,
   430227734, 506948616, 659060556, 883997877, 958139571, 1322822218,
   1537002063, 1747873779, 1955562222, 2024104815, 2227730452, 2361852424,
   2428436474, 2756734187, 3204031479, 3329325298]

def H0 : List Nat :=
  [1779033703, 3144134277, 1013904242, 2773480762,
   1359893119, 2600822924, 528734635, 1541459225]

/-- Extend the schedule: the accumulator holds the words generated so far in
reverse order (newest first); each step prepends one new word. -/
def scheduleRev : Nat → List Nat → List Nat
  | 0, acc => acc
  | fuel + 1, acc =>
      scheduleRev fuel
        (add32 (add32 (smallSigma1 (acc.getD 1 0)) (acc.getD 6 0))
          (add32 (smallSigma0 (acc.getD 14 0)) (acc.getD 15 0)) :: acc)

def schedule (ws : List Nat) : List Nat := (scheduleRev 48 ws.reverse).reverse

structure St where
  a : Nat
  b : Nat
  c : Nat
  d : Nat
  e : Nat
  f : Nat
  g : Nat
  h : Nat
deriving DecidableEq, Repr

def roundStep (st : St) (kw : Nat × Nat) : St :=
  let t1 := add32 st.h (add32 (bigSigma1 st.e) (add32 (chFn st.e st.f st.g) (add32 kw.1 kw.2)))
  let t2 := add32 (bigSigma0 st.a) (majFn st.a st.b st.c)
  ⟨add32 t1 t2, st.a, st.b, st.c, add32 st.d t1, st.e, st.f, st.g⟩

def listToSt (l : List Nat) : St :=
  ⟨l.getD 0 0, l.getD 1 0, l.getD 2 0, l.getD 3 0, l.getD 4 0, l.getD 5 0, l.getD 6 0, l.getD 7 0⟩

def stToList (s : St) : List Nat := [s.a, s.b, s.c, s.d, s.e, s.f, s.g, s.h]

def compressBlock (hs : List Nat) (block : List Nat) : List Nat :=
  let ws := schedule block
  let st0 := listToSt hs
  let st := (K.zip ws).foldl roundStep st0
  List.zipWith add32 hs (stToList st)

/-- Big-endian bytes of a 64-bit value. -/
def be64 (n : Nat) : List Nat :=
  [n / 72057594037927936 % 256, n / 281474976710656 % 256, n / 1099511627776 % 256,
   n / 4294967296 % 256, n / 16777216 % 256, n / 65536 % 256, n / 256 % 256, n % 256]

/-- Big-endian bytes of a 32-bit word. -/
def be32 (n : Nat) : List Nat :=
  [n / 16777216 % 256, n / 65536 % 256, n / 256 % 256, n % 256]

/-- SHA-256 padding: append 0x80, zero bytes to 56 mod 64, then the bit
length as a big-endian 64-bit value. -/
def padMessage (msg : List Nat) : List Nat :=
  let l := msg.length
  let k := (119 - l % 64) % 64
  msg ++ 128 :: (List.replicate k 0 ++ be64 (8 * l))

/-- Group a byte list into big-endian 32-bit words. -/
def bytesToWords : List Nat → List Nat
  | b0 :: b1 :: b2 :: b3 :: rest =>
      (b0 * 16777216 + b1 * 65536 + b2 * 256 + b3) :: bytesToWords rest
  | _ => []

/-- Group a word list into 16-word blocks (fuel-based structural
recursion so that the kernel can evaluate it). -/
def toBlocksF : Nat → List Nat → List (List Nat)
  | 0, _ => []
  | _, [] => []
  | fuel + 1, w :: rest => (w :: rest.take 15) :: toBlocksF fuel (rest.drop 15)

/-- Group a word list into 16-word blocks. -/
def toBlocks (ws : List Nat) : List (List Nat) := toBlocksF ws.length ws

/-- SHA-256 of a byte list, as 32 bytes. -/
def sha256 (msg : List Nat) : List Nat :=
  let blocks := toBlocks (bytesToWords (padMessage msg))
  let hs := blocks.foldl compressBlock H0
  hs.flatMap be32

/-- Little-endian u64 from the first 8 bytes of a digest. -/
def first8LE (digest : List Nat) : Nat :=
  (List.range 8).foldl (fun acc i => acc + digest.getD i 0 * 256 ^ i) 0

end Sha256

/-! ## Deterministic RNG (`core/rng.rs`) -/

/-- Xorshift128+ generator state: two u64 words. -/
structure Rng where
  s0 : Nat
  s1 : Nat
deriving DecidableEq, Repr

/-- u64 truncation. -/
def u64 (x : Nat) : Nat := x % 18446744073709551616

/-- Left rotation of a u64. -/
def rotl64 (x n : Nat) : Nat :=
  ((x <<< n) ||| (x >>> (64 - n))) % 18446744073709551616

/-- SplitMix64 step (`splitmix64`): returns the output and the advanced
internal state. -/
def splitmix64 (state : Nat) : Nat × Nat :=
  let st := u64 (state + 0x9E3779B97F4A7C15)
  let z1 := u64 (Nat.xor st (st >>> 30) * 0xBF58476D1CE4E5B9)
  let z2 := u64 (Nat.xor z1 (z1 >>> 27) * 0x94D049BB133111EB)
  (Nat.xor z2 (z2 >>> 31), st)

namespace Rng

/-- `DeterministicRng::new`: SplitMix64-expanded seed, never all zero. -/
def new (seed : Nat) : Rng :=
  let p0 := splitmix64 seed
  let p1 := splitmix64 p0.2
  if p0.1 = 0 ∧ p1.1 = 0 then ⟨1, 1⟩ else ⟨p0.1, p1.1⟩

/-- `next_u64`: one Xorshift128+ step, returning the drawn value and the
advanced generator. -/
def next_u64 (r : Rng) : Nat × Rng :=
  let s0 := r.s0
  let s1 := r.s1
  let result := u64 (s0 + s1)
  let s1x := Nat.xor s1 s0
  (result, ⟨Nat.xor (Nat.xor (rotl64 s0 24) s1x) (u64 (s1x <<< 16)), rotl64 s1x 37⟩)

/-- `next_int`: bounded draw by modulo; zero bound returns zero. -/
def next_int (r : Rng) (max : Nat) : Nat × Rng :=
  if max = 0 then (0, r)
  else
    let p := next_u64 r
    (p.1 % max, p.2)

/-- `next_fixed`: bounded fixed-point draw using the upper 32 bits. -/
def next_fixed (r : Rng) (max : Int) : Int × Rng :=
  if max ≤ 0 then (0, r)
  else
    let p := next_u64 r
    let raw : Int := (p.1 >>> 32 : Nat)
    (wrap32 ((raw * max) >>> 32), p.2)

/-- `next_fixed_range`: draw in `[min, max)` with wrapping arithmetic. -/
def next_fixed_range (r : Rng) (lo hi : Int) : Int × Rng :=
  if lo ≥ hi then (lo, r)
  else
    let p := next_fixed r (wrap32 (hi - lo))
    (wrap32 (lo + p.1), p.2)

/-- `random_position`: uniform point within the (full) arena bounds. -/
def random_position (r : Rng) : FixedVec2 × Rng :=
  let px := next_fixed_range r (-ARENA_HALF_WIDTH) ARENA_HALF_WIDTH
  let py := next_fixed_range px.2 (-ARENA_HALF_HEIGHT) ARENA_HALF_HEIGHT
  (⟨px.1, py.1⟩, py.2)

/-- `random_position_in_circle`: rejection sampling; the unbounded source
loop is given explicit fuel (the fallback returns the centre, which no
evaluated execution reaches). -/
def random_position_in_circle (r : Rng) (center : FixedVec2) (radius : Int) :
    Nat → FixedVec2 × Rng
  | 0 => (center, r)
  | fuel + 1 =>
      let px := next_fixed_range r (-radius) radius
      let py := next_fixed_range px.2 (-radius) radius
      let offset : FixedVec2 := ⟨px.1, py.1⟩
      let radius_sq := fixed_mul radius radius
      if offset.length_squared ≤ radius_sq then (center.add offset, py.2)
      else random_position_in_circle py.2 center radius fuel

end Rng

/-- Fuel used for the rejection-sampling loops. -/
def REJECTION_FUEL : Nat := 64

/-- Domain separator bytes of `b"RUNE_RELIC_SEED_V1"`. -/
def SEED_DOMAIN : List Nat :=
  [82, 85, 78, 69, 95, 82, 69, 76, 73, 67, 95, 83, 69, 69, 68, 95, 86, 49]

/-- `derive_match_seed`: SHA-256 over domain, block hash, match id and the
player ids in the order given (the source requires the caller to sort
them), then the first 8 digest bytes little-endian. -/
def derive_match_seed (block_hash : List Nat) (match_id : List Nat)
    (player_ids : List (List Nat)) : Nat :=
  Sha256.first8LE
    (Sha256.sha256 (SEED_DOMAIN ++ block_hash ++ match_id ++ player_ids.flatten))

/-! ## Game identifiers and enums (`game/state.rs`) -/

/-- 16-byte player identifier, totally ordered bytewise. -/
structure PlayerId where
  bytes : List Nat
deriving DecidableEq, Repr

/-- Lexicographic strict order on byte lists (Rust `[u8; 16]` `Ord`). -/
def byteListLt : List Nat → List Nat → Bool
  | [], [] => false
  | [], _ :: _ => true
  | _ :: _, [] => false
  | a :: as, b :: bs => if a < b then true else if b < a then false else byteListLt as bs

/-- Strict order on player ids. -/
def PlayerId.lt (a b : PlayerId) : Bool := byteListLt a.bytes b.bytes

/-- Three-way comparison on byte lists. -/
def cmpBytes (a b : List Nat) : Ordering :=
  if byteListLt a b then Ordering.lt
  else if byteListLt b a then Ordering.gt
  else Ordering.eq

/-- Rust `Ord` on `Option<PlayerId>`: `None` sorts first. -/
def cmpOptId : Option PlayerId → Option PlayerId → Ordering
  | none, none => Ordering.eq
  | none, some _ => Ordering.lt
  | some _, none => Ordering.gt
  | some a, some b => cmpBytes a.bytes b.bytes

/-- Three-way comparison on naturals. -/
def cmpNat (a b : Nat) : Ordering :=
  if a < b then Ordering.lt else if b < a then Ordering.gt else Ordering.eq

/-- Player evolution form, tiers 1-5 (`Form`). -/
inductive Form
  | Spark
  | Glyph
  | Ward
  | Arcane
  | Ancient
deriving DecidableEq, Repr

/-- Discriminant of a form (`Form as u8`). -/
def Form.idx : Form → Nat
  | .Spark => 0
  | .Glyph => 1
  | .Ward => 2
  | .Arcane => 3
  | .Ancient => 4

/-- Movement speed of a form (`Form::speed`). -/
def Form.speed (f : Form) : Int := FORM_SPEEDS.getD f.idx 0

/-- Collision radius of a form (`Form::radius`). -/
def Form.radius (f : Form) : Int := FORM_RADII.getD f.idx 0

/-- Next form, if not maximal (`Form::next`). -/
def Form.next : Form → Option Form
  | .Spark => some .Glyph
  | .Glyph => some .Ward
  | .Ward => some .Arcane
  | .Arcane => some .Ancient
  | .Ancient => none

/-- Form from a discriminant (`Form::from_index`). -/
def Form.from_index : Nat → Option Form
  | 0 => some .Spark
  | 1 => some .Glyph
  | 2 => some .Ward
  | 3 => some .Arcane
  | 4 => some .Ancient
  | _ => none

/-- Rune collectible type (`RuneType`). -/
inductive RuneType
  | Wisdom
  | Power
  | Speed
  | Shield
  | Arcane
  | Chaos
deriving DecidableEq, Repr

/-- Discriminant of a rune type. -/
def RuneType.idx : RuneType → Nat
  | .Wisdom => 0
  | .Power => 1
  | .Speed => 2
  | .Shield => 3
  | .Arcane => 4
  | .Chaos => 5

/-- Point value of a rune type (`RuneType::value`). -/
def RuneType.value : RuneType → Nat
  | .Wisdom => 10
  | .Power => 15
  | .Speed => 12
  | .Shield => 8
  | .Arcane => 25
  | .Chaos => 50

/-- Shrine type (`ShrineType`). -/
inductive ShrineType
  | Wisdom
  | Power
  | Speed
  | Shield
deriving DecidableEq, Repr

/-- Discriminant of a shrine type. -/
def ShrineType.idx : ShrineType → Nat
  | .Wisdom => 0
  | .Power => 1
  | .Speed => 2
  | .Shield => 3

/-- Ability type (`AbilityType`). -/
inductive AbilityType
  | Dash
  | PhaseShift
  | Repel
  | GravityWell
  | Consume
deriving DecidableEq, Repr

/-- Discriminant of an ability type. -/
def AbilityType.idx : AbilityType → Nat
  | .Dash => 0
  | .PhaseShift => 1
  | .Repel => 2
  | .GravityWell => 3
  | .Consume => 4

/-! ## Player, rune, shrine and effect state (`game/state.rs`) -/

/-- State of one player. -/
structure PlayerState where
  id : PlayerId
  position : FixedVec2
  velocity : FixedVec2
  form : Form
  score : Nat
  alive : Bool
  placement : Option Nat
  eliminated_tick : Option Nat
  eliminated_by : Option PlayerId
  ability_cooldown : Int
  last_jump_tick : Nat
  kills : Nat
  runes_collected : Nat
  health : Int
  max_health : Int
  speed_buff_ticks : Nat
  shield_buff_ticks : Nat
  invulnerable_ticks : Nat
  dash_velocity : Option FixedVec2
  shrine_buffs : List ShrineType
  shrine_buff_ticks : List Nat
deriving DecidableEq, Repr

namespace PlayerState

/-- `PlayerState::new`: fresh player at a spawn position. -/
def new (id : PlayerId) (position : FixedVec2) : PlayerState :=
  ⟨id, position, FixedVec2.ZERO, .Spark, 0, true, none, none, none, 0, 0, 0, 0,
    FIXED_ONE, FIXED_ONE, 0, 0, 0, none, [], []⟩

/-- Movement speed from the form. -/
def speed (p : PlayerState) : Int := p.form.speed

/-- Collision radius from the form. -/
def radius (p : PlayerState) : Int := p.form.radius

/-- `can_evolve`: below max form and at or above the next threshold. -/
def can_evolve (p : PlayerState) : Bool :=
  if p.form = .Ancient then false
  else p.score ≥ SCORE_TO_EVOLVE.getD p.form.idx 0

/-- `try_evolve`: move to the next form when possible; returns the updated
player and whether evolution happened. -/
def try_evolve (p : PlayerState) : PlayerState × Bool :=
  match p.form.next with
  | some next_form => if p.can_evolve then ({ p with form := next_form }, true) else (p, false)
  | none => (p, false)

/-- `ability_ready`: cooldown elapsed. -/
def ability_ready (p : PlayerState) : Bool := p.ability_cooldown ≤ 0

/-- `can_jump`: at least 30 ticks since the last jump. -/
def can_jump (p : PlayerState) (current_tick : Nat) : Bool :=
  current_tick - p.last_jump_tick ≥ 30

/-- `add_score`: saturating score addition followed by `try_evolve`. -/
def add_score (p : PlayerState) (amount : Nat) : PlayerState × Bool :=
  try_evolve { p with score := satAddU32 p.score amount }

/-- `has_shrine_buff`: the buff type is present with a positive timer. -/
def has_shrine_buff (p : PlayerState) (buff_type : ShrineType) : Bool :=
  (p.shrine_buffs.enum.any fun st =>
    decide (st.2 = buff_type ∧ (p.shrine_buff_ticks.getD st.1 0) > 0))

/-- `add_shrine_buff`: refresh an existing buff of the same type, else push
a new buff with its timer. -/
def add_shrine_buff (p : PlayerState) (buff_type : ShrineType) (duration : Nat) : PlayerState :=
  match p.shrine_buffs.findIdx? (fun st => st == buff_type) with
  | some i => { p with shrine_buff_ticks := p.shrine_buff_ticks.set i duration }
  | none =>
      { p with shrine_buffs := p.shrine_buffs ++ [buff_type],
               shrine_buff_ticks := p.shrine_buff_ticks ++ [duration] }

end PlayerState

/-! ## Collision detection (`game/collision.rs`) -/

/-- `circles_overlap`: squared-distance comparison against the wrapped
combined radius. -/
def circles_overlap (pos_a : FixedVec2) (radius_a : Int) (pos_b : FixedVec2)
    (radius_b : Int) : Bool :=
  let combined := wrap32 (radius_a + radius_b)
  let combined_sq := fixed_mul combined combined
  pos_a.distance_squared pos_b ≤ combined_sq

/-- Result of a player-vs-player collision. -/
structure PlayerCollision where
  winner : PlayerId
  loser : PlayerId
deriving DecidableEq, Repr

/-- `check_player_collision`: deterministic resolution of an overlap by
form, then shield advantage, then lowest id. -/
def check_player_collision (a b : PlayerState) : Option PlayerCollision :=
  if ¬ a.alive ∨ ¬ b.alive then none
  else if a.invulnerable_ticks > 0 ∨ b.invulnerable_ticks > 0 then none
  else if ¬ circles_overlap a.position a.radius b.position b.radius then none
  else
    let wl :=
      if b.form.idx < a.form.idx then (a.id, b.id)
      else if a.form.idx < b.form.idx then (b.id, a.id)
      else
        let a_shield := a.shield_buff_ticks > 0 ∨ a.has_shrine_buff .Shield
        let b_shield := b.shield_buff_ticks > 0 ∨ b.has_shrine_buff .Shield
        if a_shield ∧ ¬ b_shield then (a.id, b.id)
        else if b_shield ∧ ¬ a_shield then (b.id, a.id)
        else if a.id.lt b.id then (a.id, b.id) else (b.id, a.id)
    some ⟨wl.1, wl.2⟩

/-- Concrete player used by the C4 witness. -/
def paC4 : PlayerState := PlayerState.new ⟨List.replicate 16 1⟩ FixedVec2.ZERO

/-- Second concrete player used by the C4 witness. -/
def pbC4 : PlayerState := PlayerState.new ⟨List.replicate 16 2⟩ FixedVec2.ZERO

/-! ## Merkle tree commitments (`proof/merkle.rs`) -/

/-- Domain separator bytes of `b"RUNE_RELIC_MERKLE_LEAF_V1"`. -/
def MERKLE_LEAF_DOMAIN : List Nat :=
  [82, 85, 78, 69, 95, 82, 69, 76, 73, 67, 95, 77, 69, 82, 75, 76, 69, 95, 76, 69, 65, 70, 95, 86, 49]

/-- Domain separator bytes of `b"RUNE_RELIC_MERKLE_NODE_V1"`. -/
def MERKLE_NODE_DOMAIN : List Nat :=
  [82, 85, 78, 69, 95, 82, 69, 76, 73, 67, 95, 77, 69, 82, 75, 76, 69, 95, 78, 79, 68, 69, 95, 86, 49]

/-- Domain separator bytes of `b"RUNE_RELIC_MERKLE_EMPTY_V1"`. -/
def MERKLE_EMPTY_DOMAIN : List Nat :=
  [82, 85, 78, 69, 95, 82, 69, 76, 73, 67, 95, 77, 69, 82, 75, 76, 69, 95, 69, 77, 80, 84, 89, 95, 86, 49]

/-- `hash_leaf`: domain-separated leaf hash. -/
def hash_leaf (data : List Nat) : List Nat :=
  Sha256.sha256 (MERKLE_LEAF_DOMAIN ++ data)

/-- `hash_nodes`: domain-separated internal-node hash. -/
def hash_nodes (left right : List Nat) : List Nat :=
  Sha256.sha256 (MERKLE_NODE_DOMAIN ++ (left ++ right))

/-- `empty_hash`: padding hash. -/
def empty_hash : List Nat := Sha256.sha256 MERKLE_EMPTY_DOMAIN

/-- Structural version of Rust `usize::next_power_of_two` (the core
`Nat.nextPowerOfTwo` is well-founded and does not reduce in the kernel). -/
def nextPow2go (n : Nat) : Nat → Nat → Nat
  | 0, power => power
  | fuel + 1, power => if power < n then nextPow2go n fuel (power * 2) else power

/-- Smallest power of two at least `n` (with `nextPow2 0 = 1`). -/
def nextPow2 (n : Nat) : Nat := nextPow2go n n 1

/-- Pad leaf hashes with `empty_hash` to the next power of two. -/
def padToPow2 (leaves : List (List Nat)) : List (List Nat) :=
  leaves ++ List.replicate (nextPow2 leaves.length - leaves.length) empty_hash

/-- Combine one level pairwise; an odd trailing element is paired with
itself (`chunks(2)` with `right = left`). -/
def combineLevel : List (List Nat) → List (List Nat)
  | [] => []
  | [a] => [hash_nodes a a]
  | a :: b :: rest => hash_nodes a b :: combineLevel rest

/-- Build all tree levels bottom-up from the (padded) leaf level
(`MerkleTree::build`), with fuel for structural recursion. -/
def buildLevels : Nat → List (List Nat) → List (List (List Nat))
  | 0, cur => [cur]
  | fuel + 1, cur =>
      if cur.length ≤ 1 then [cur] else cur :: buildLevels fuel (combineLevel cur)

/-- All levels of the tree over the given leaf hashes. -/
def MerkleLevels (leafHashes : List (List Nat)) : List (List (List Nat)) :=
  if leafHashes = [] then []
  else buildLevels (padToPow2 leafHashes).length (padToPow2 leafHashes)

/-- `MerkleTree::root`: the single hash at the top level; `empty_hash` for
an empty tree. -/
def MerkleRootOfLeaves (leafHashes : List (List Nat)) : List Nat :=
  if leafHashes = [] then empty_hash
  else ((MerkleLevels leafHashes).getLastD []).getD 0 empty_hash

/-- Merkle inclusion proof: leaf index and per-level sibling hashes with
their side flag. -/
structure MerkleProof where
  leaf_index : Nat
  siblings : List (List Nat × Bool)
deriving DecidableEq, Repr

/-- Collect sibling hashes walking up all levels but the last
(`MerkleTree::generate_proof`, loop body). -/
def proofSiblings : List (List (List Nat)) → Nat → List (List Nat × Bool)
  | [], _ => []
  | [_], _ => []
  | level :: next :: rest, idx =>
      let sibling_index := if idx % 2 = 0 then idx + 1 else idx - 1
      let entry :=
        if sibling_index < level.length then
          [(level.getD sibling_index empty_hash, decide (idx % 2 = 0))]
        else []
      entry ++ proofSiblings (next :: rest) (idx / 2)

/-- `MerkleTree::generate_proof`: `none` when the index is out of bounds. -/
def generate_proof (leafHashes : List (List Nat)) (index : Nat) : Option MerkleProof :=
  if index ≥ leafHashes.length then none
  else some ⟨index, proofSiblings (MerkleLevels leafHashes) index⟩

/-- Fold a leaf hash up the sibling path (`MerkleTree::verify_proof`,
loop body). -/
def verifyFold (h : List Nat) : List (List Nat × Bool) → List Nat
  | [] => h
  | (sibling, is_right) :: rest =>
      verifyFold (if is_right then hash_nodes h sibling else hash_nodes sibling h) rest

/-- `MerkleTree::verify_proof`: rebuild the root from the leaf data and
compare. -/
def verify_proof (root : List Nat) (proof : MerkleProof) (leaf_data : List Nat) : Bool :=
  verifyFold (hash_leaf leaf_data) proof.siblings == root

/-! ## Association-list model of `BTreeMap` -/

/-- Lookup by key (`BTreeMap::get`). -/
def alookup {α β : Type} [DecidableEq α] (k : α) : List (α × β) → Option β
  | [] => none
  | (k2, v) :: rest => if k2 = k then some v else alookup k rest

/-- Update the value at a key in place, when present (`BTreeMap::get_mut`
followed by mutation). -/
def aupdate {α β : Type} [DecidableEq α] (k : α) (f : β → β) :
    List (α × β) → List (α × β)
  | [] => []
  | (k2, v) :: rest => if k2 = k then (k2, f v) :: rest else (k2, v) :: aupdate k f rest

/-- Key-ordered insert (`BTreeMap::insert`), parameterized by the strict
key order. -/
def ainsertBy {α β : Type} [DecidableEq α] (lt : α → α → Bool) (k : α) (v : β) :
    List (α × β) → List (α × β)
  | [] => [(k, v)]
  | (k2, v2) :: rest =>
      if lt k k2 then (k, v) :: (k2, v2) :: rest
      else if k = k2 then (k, v) :: rest
      else (k2, v2) :: ainsertBy lt k v rest

/-! ## Game events (`game/events.rs`) -/

/-- Event processing priority (`EventPriority`). -/
inductive EventPriority
  | PlayerElimination
  | RuneCollection
  | FormEvolution
  | ShrineActivation
  | AbilityEffect
  | Other
deriving DecidableEq, Repr

/-- Discriminant of a priority (`EventPriority as u8`). -/
def EventPriority.val : EventPriority → Nat
  | .PlayerElimination => 0
  | .RuneCollection => 1
  | .FormEvolution => 2
  | .ShrineActivation => 3
  | .AbilityEffect => 4
  | .Other => 255

/-- Event payload (`GameEventData`). -/
inductive GameEventData
  | PlayerEliminated (victim_id : PlayerId) (killer_id : Option PlayerId) (placement : Nat)
  | RuneCollected (player_id : PlayerId) (rune_id : Nat) (rune_type : RuneType)
      (points : Nat) (new_score : Nat)
  | FormEvolved (player_id : PlayerId) (old_form : Form) (new_form : Form)
  | ShrineChannelStarted (player_id : PlayerId) (shrine_id : Nat)
  | ShrineActivated (player_id : PlayerId) (shrine_id : Nat)
  | ShrineChannelInterrupted (player_id : PlayerId) (shrine_id : Nat)
  | AbilityUsed (player_id : PlayerId) (ability_type : Nat)
  | PhaseChanged (old_phase : List Nat) (new_phase : List Nat)
  | RuneSpawned (rune_id : Nat) (rune_type : RuneType) (position : FixedVec2)
  | MatchEnded (winner_id : Option PlayerId) (duration_ticks : Nat)
deriving DecidableEq, Repr

/-- A game event with timing and priority (`GameEvent`). -/
structure GameEvent where
  tick : Nat
  priority : EventPriority
  player_id : Option PlayerId
  data : GameEventData
deriving DecidableEq, Repr

namespace GameEvent

/-- `GameEvent::new`: derive the tie-breaking player id from the payload. -/
def mkEvent (tick : Nat) (priority : EventPriority) (data : GameEventData) : GameEvent :=
  let player_id :=
    match data with
    | .PlayerEliminated victim_id _ _ => some victim_id
    | .RuneCollected player_id _ _ _ _ => some player_id
    | .FormEvolved player_id _ _ => some player_id
    | .ShrineChannelStarted player_id _ => some player_id
    | .ShrineActivated player_id _ => some player_id
    | .ShrineChannelInterrupted player_id _ => some player_id
    | .AbilityUsed player_id _ => some player_id
    | .MatchEnded winner_id _ => winner_id
    | _ => none
  ⟨tick, priority, player_id, data⟩

/-- `GameEvent::player_eliminated`. -/
def player_eliminated (tick : Nat) (victim_id : PlayerId) (killer_id : Option PlayerId)
    (placement : Nat) : GameEvent :=
  mkEvent tick .PlayerElimination (.PlayerEliminated victim_id killer_id placement)

/-- `GameEvent::rune_collected`. -/
def rune_collected (tick : Nat) (player_id : PlayerId) (rune_id : Nat)
    (rune_type : RuneType) (points new_score : Nat) : GameEvent :=
  mkEvent tick .RuneCollection (.RuneCollected player_id rune_id rune_type points new_score)

/-- `GameEvent::form_evolved`. -/
def form_evolved (tick : Nat) (player_id : PlayerId) (old_form new_form : Form) : GameEvent :=
  mkEvent tick .FormEvolution (.FormEvolved player_id old_form new_form)

/-- `GameEvent::match_ended`. -/
def match_ended (tick : Nat) (winner_id : Option PlayerId) : GameEvent :=
  mkEvent tick .Other (.MatchEnded winner_id tick)

/-- `GameEvent::shrine_channel_started`. -/
def shrine_channel_started (tick : Nat) (player_id : PlayerId) (shrine_id : Nat) : GameEvent :=
  mkEvent tick .ShrineActivation (.ShrineChannelStarted player_id shrine_id)

/-- `GameEvent::shrine_activated`. -/
def shrine_activated (tick : Nat) (player_id : PlayerId) (shrine_id : Nat) : GameEvent :=
  mkEvent tick .ShrineActivation (.ShrineActivated player_id shrine_id)

/-- `GameEvent::shrine_channel_interrupted`. -/
def shrine_channel_interrupted (tick : Nat) (player_id : PlayerId) (shrine_id : Nat) : GameEvent :=
  mkEvent tick .ShrineActivation (.ShrineChannelInterrupted player_id shrine_id)

/-- `GameEvent::ability_used`. -/
def ability_used (tick : Nat) (player_id : PlayerId) (ability_type : Nat) : GameEvent :=
  mkEvent tick .AbilityEffect (.AbilityUsed player_id ability_type)

/-- The `Ord` implementation on `GameEvent`: lexicographic by tick, then
priority, then player id. -/
def cmp (a b : GameEvent) : Ordering :=
  ((cmpNat a.tick b.tick).then (cmpNat a.priority.val b.priority.val)).then
    (cmpOptId a.player_id b.player_id)

end GameEvent

/-- Whether an event list is nondecreasing under the `GameEvent` total
order. -/
def eventsSorted : List GameEvent → Bool
  | [] => true
  | [_] => true
  | a :: b :: rest => GameEvent.cmp a b ≠ Ordering.gt && eventsSorted (b :: rest)

/-! ## Rune, shrine, ability-effect and match state (`game/state.rs`) -/

/-- State of a rune collectible (`RuneState`). -/
structure RuneState where
  id : Nat
  position : FixedVec2
  rune_type : RuneType
  collected : Bool
  collected_tick : Option Nat
  collected_by : Option PlayerId
deriving DecidableEq, Repr

/-- Rune collision radius (`RuneState::RADIUS`). -/
def RuneState.RADIUS : Int := 19660

/-- `RuneState::new`. -/
def RuneState.new (id : Nat) (position : FixedVec2) (rune_type : RuneType) : RuneState :=
  ⟨id, position, rune_type, false, none, none⟩

/-- `RuneState::value`. -/
def RuneState.value (r : RuneState) : Nat := r.rune_type.value

/-- State of a shrine (`ShrineState`). -/
structure ShrineState where
  id : Nat
  position : FixedVec2
  shrine_type : ShrineType
  active : Bool
  channeling_player : Option PlayerId
  channel_progress : Int
  cooldown : Int
deriving DecidableEq, Repr

/-- Shrine interaction radius (`ShrineState::RADIUS`). -/
def ShrineState.RADIUS : Int := 196608

/-- Channel ticks required (`ShrineState::CHANNEL_TICKS`). -/
def ShrineState.CHANNEL_TICKS : Nat := 300

/-- Cooldown ticks after use (`ShrineState::COOLDOWN_TICKS`). -/
def ShrineState.COOLDOWN_TICKS : Nat := 3600

/-- `ShrineState::new`. -/
def ShrineState.new (id : Nat) (position : FixedVec2) (shrine_type : ShrineType) : ShrineState :=
  ⟨id, position, shrine_type, true, none, 0, 0⟩

/-- Ephemeral field effect (`ActiveAbilityEffect`). -/
structure ActiveAbilityEffect where
  ability_type : AbilityType
  source_player : PlayerId
  position : FixedVec2
  remaining_ticks : Nat
  radius : Int
deriving DecidableEq, Repr

/-- Match phase (`MatchPhase`). -/
inductive MatchPhase
  | Waiting
  | Countdown (ticks_remaining : Nat)
  | Playing
  | Ended
deriving DecidableEq, Repr

/-! ## Arcane Circuit map geometry (`game/map.rs`) -/

/-- Corridor half width: 3.5. -/
def CORRIDOR_HALF_WIDTH : Int := 229376

/-- Spawn-zone offset from its anchor: 20.0. -/
def SPAWN_OFFSET : Int := 1310720

/-- Spawn-zone radius: 5.0. -/
def SPAWN_RADIUS : Int := 327680

/-- Circular hub. -/
structure Hub where
  center : FixedVec2
  radius : Int
deriving DecidableEq, Repr

/-- Corridor segment with a half width. -/
structure Corridor where
  start : FixedVec2
  stop : FixedVec2
  half_width : Int
deriving DecidableEq, Repr

/-- `Corridor::new`. -/
def Corridor.new (start stop : FixedVec2) : Corridor := ⟨start, stop, CORRIDOR_HALF_WIDTH⟩

/-- `Corridor::length`. -/
def Corridor.len (c : Corridor) : Int := c.start.distance c.stop

/-- Spawn alcove. -/
structure SpawnZone where
  id : Nat
  anchor : FixedVec2
  center : FixedVec2
  radius : Int
  corridor : Corridor
deriving DecidableEq, Repr

/-- The static arena graph (`ArcaneCircuitMap`). -/
structure ArcaneCircuitMap where
  hubs : List Hub
  corridors : List Corridor
  spawn_zones : List SpawnZone
  hub_weights : List Nat
  corridor_weights : List Nat
deriving DecidableEq, Repr

/-- Integer-coordinate vector (`FixedVec2::from_ints`). -/
def vI (x y : Int) : FixedVec2 := ⟨x * 65536, y * 65536⟩

/-- The fixed hub list of `ArcaneCircuitMap::new`. -/
def mapHubs : List Hub :=
  [⟨vI 0 0, 2293760⟩, ⟨vI 0 90, 2293760⟩, ⟨vI 0 (-90), 2293760⟩,
   ⟨vI 140 0, 2293760⟩, ⟨vI (-140) 0, 2293760⟩,
   ⟨vI 70 45, 1179648⟩, ⟨vI (-70) 45, 1179648⟩,
   ⟨vI 70 (-45), 1179648⟩, ⟨vI (-70) (-45), 1179648⟩]

/-- The fixed corridor list of `ArcaneCircuitMap::new`. -/
def mapCorridors : List Corridor :=
  [Corridor.new (vI 0 0) (vI 70 45), Corridor.new (vI 0 0) (vI (-70) 45),
   Corridor.new (vI 0 0) (vI 70 (-45)), Corridor.new (vI 0 0) (vI (-70) (-45)),
   Corridor.new (vI 70 45) (vI 0 90), Corridor.new (vI 70 45) (vI 140 0),
   Corridor.new (vI (-70) 45) (vI 0 90), Corridor.new (vI (-70) 45) (vI (-140) 0),
   Corridor.new (vI 70 (-45)) (vI 0 (-90)), Corridor.new (vI 70 (-45)) (vI 140 0),
   Corridor.new (vI (-70) (-45)) (vI 0 (-90)), Corridor.new (vI (-70) (-45)) (vI (-140) 0),
   Corridor.new (vI 0 90) (vI 0 140), Corridor.new (vI 0 140) (vI 140 140),
   Corridor.new (vI 140 140) (vI 140 0),
   Corridor.new (vI 140 0) (vI 140 (-140)), Corridor.new (vI 140 (-140)) (vI 0 (-140)),
   Corridor.new (vI 0 (-140)) (vI 0 (-90)),
   Corridor.new (vI 0 (-90)) (vI 0 (-140)), Corridor.new (vI 0 (-140)) (vI (-140) (-140)),
   Corridor.new (vI (-140) (-140)) (vI (-140) 0),
   Corridor.new (vI (-140) 0) (vI (-140) 140), Corridor.new (vI (-140) 140) (vI 0 140),
   Corridor.new (vI 0 140) (vI 0 90)]

/-- The fixed spawn anchors of `ArcaneCircuitMap::new`. -/
def mapSpawnAnchors : List FixedVec2 :=
  [vI (-20) 115, vI 20 115, vI (-20) (-115), vI 20 (-115),
   vI 165 20, vI 165 (-20), vI (-165) 20, vI (-165) (-20),
   vI 110 80, vI 120 70, vI (-110) 80, vI (-120) 70,
   vI 110 (-80), vI 120 (-70), vI (-110) (-80), vI (-120) (-70)]

/-- `ArcaneCircuitMap::new`. -/
def ArcaneCircuitMap.new : ArcaneCircuitMap :=
  let spawn_zones := mapSpawnAnchors.enum.map fun p =>
    let anchor := p.2
    let dir := anchor.normalize
    let center := anchor.add (dir.scale SPAWN_OFFSET)
    SpawnZone.mk p.1 anchor center SPAWN_RADIUS (Corridor.new anchor center)
  let hub_weights := mapHubs.map fun hub =>
    (max (fixed_abs (fixed_mul hub.radius hub.radius)) 1).toNat
  let corridor_weights := mapCorridors.map fun c =>
    (max (fixed_abs c.len) 1).toNat
  ⟨mapHubs, mapCorridors, spawn_zones, hub_weights, corridor_weights⟩

/-- Scan for the weighted index (`pick_weighted_index`, loop body). -/
def pickGo : Nat → Nat → List Nat → Option Nat
  | _, _, [] => none
  | i, roll, w :: rest => if roll < w then some i else pickGo (i + 1) (roll - w) rest

/-- `pick_weighted_index`. -/
def pick_weighted_index (weights : List Nat) (rng : Rng) : Nat × Rng :=
  if weights = [] then (0, rng)
  else
    let total := weights.sum
    if total = 0 then (0, rng)
    else
      let p := rng.next_int total
      ((pickGo 0 p.1 weights).getD (weights.length - 1), p.2)

/-- `Corridor::random_point`. -/
def Corridor.random_point (c : Corridor) (rng : Rng) (margin : Int) : FixedVec2 × Rng :=
  let half_width := max (satSub32 c.half_width margin) 0
  let pt := rng.next_fixed FIXED_ONE
  let poff :=
    if half_width > 0 then pt.2.next_fixed_range (-half_width) half_width
    else (0, pt.2)
  let ab := c.stop.sub c.start
  let dir := ab.normalize
  let perp : FixedVec2 := ⟨wrap32 (-dir.y), dir.x⟩
  let center := c.start.add (ab.scale pt.1)
  (center.add (perp.scale poff.1), poff.2)

/-- `random_point_in_hub`. -/
def ArcaneCircuitMap.random_point_in_hub (m : ArcaneCircuitMap) (rng : Rng) :
    FixedVec2 × Rng :=
  let pidx := pick_weighted_index m.hub_weights rng
  let hub := m.hubs.getD pidx.1 (m.hubs.getD 0 ⟨FixedVec2.ZERO, 0⟩)
  let radius := satSub32 hub.radius RuneState.RADIUS
  Rng.random_position_in_circle pidx.2 hub.center (max radius 0) REJECTION_FUEL

/-- `random_point_in_corridor`. -/
def ArcaneCircuitMap.random_point_in_corridor (m : ArcaneCircuitMap) (rng : Rng) :
    FixedVec2 × Rng :=
  let pidx := pick_weighted_index m.corridor_weights rng
  let c := m.corridors.getD pidx.1
    (m.corridors.getD 0 (Corridor.new FixedVec2.ZERO FixedVec2.ZERO))
  c.random_point pidx.2 RuneState.RADIUS

/-- `random_point_in_spawn_zone`. -/
def ArcaneCircuitMap.random_point_in_spawn_zone (m : ArcaneCircuitMap) (rng : Rng) :
    FixedVec2 × Rng :=
  let pidx := rng.next_int m.spawn_zones.length
  let zone := m.spawn_zones.getD pidx.1
    ⟨0, FixedVec2.ZERO, FixedVec2.ZERO, 0, Corridor.new FixedVec2.ZERO FixedVec2.ZERO⟩
  let radius := satSub32 zone.radius RuneState.RADIUS
  Rng.random_position_in_circle pidx.2 zone.center (max radius 0) REJECTION_FUEL

/-- `random_pellet_position`. -/
def ArcaneCircuitMap.random_pellet_position (m : ArcaneCircuitMap) (rng : Rng)
    (weight_hubs weight_corridors weight_spawns : Nat) : FixedVec2 × Rng :=
  let total := weight_hubs + weight_corridors + weight_spawns
  if total = 0 then (FixedVec2.ZERO, rng)
  else
    let proll := rng.next_int total
    if proll.1 < weight_hubs then m.random_point_in_hub proll.2
    else if proll.1 < weight_hubs + weight_corridors then m.random_point_in_corridor proll.2
    else m.random_point_in_spawn_zone proll.2

/-! ## Input frames (`game/input.rs`) -/

/-- `move_to_fixed` / `MOVE_LUT`: exact i8-to-fixed conversion; the
sentinel -128 maps to zero, other values scale by floor((v * 65536) / 127)
computed with Rust truncating division. -/
def move_to_fixed (v : Int) : Int :=
  if v = -128 then 0 else Int.tdiv (v * 65536) 127

/-- Per-tick input frame (`InputFrame`): two i8 axes (sentinel -128 means
no input) and a flag byte. -/
structure InputFrame where
  move_x : Int
  move_y : Int
  flags : Nat
deriving DecidableEq, Repr

namespace InputFrame

/-- `InputFrame::new`: the idle frame. -/
def new : InputFrame := ⟨-128, -128, 0⟩

/-- `InputFrame::with_movement`. -/
def with_movement (mx my : Int) : InputFrame := ⟨mx, my, 0⟩

/-- `move_direction`. -/
def move_direction (f : InputFrame) : FixedVec2 :=
  ⟨move_to_fixed f.move_x, move_to_fixed f.move_y⟩

/-- `jump_pressed`: bit 0. -/
def jump_pressed (f : InputFrame) : Bool := f.flags % 2 = 1

/-- `ability_pressed`: bit 1. -/
def ability_pressed (f : InputFrame) : Bool := f.flags / 2 % 2 = 1

end InputFrame

/-- Delta-compressed input entry (`InputDelta`). -/
structure InputDelta where
  tick : Nat
  frame : InputFrame
deriving DecidableEq, Repr

/-! ## Match state (`game/state.rs`), with the `map` field required by
`game/rune.rs` -/

/-- Complete match state (`MatchState`).  `players` and `runes` model the
`BTreeMap`s as key-sorted association lists. -/
structure MatchState where
  match_id : List Nat
  tick : Nat
  phase : MatchPhase
  rng_seed : Nat
  rng : Rng
  players : List (PlayerId × PlayerState)
  runes : List (Nat × RuneState)
  shrines : List ShrineState
  next_rune_id : Nat
  alive_count : Nat
  next_placement : Nat
  pending_events : List GameEvent
  arena_shrink : Int
  active_abilities : List ActiveAbilityEffect
  map : ArcaneCircuitMap
deriving Repr

namespace MatchState

/-- `MatchState::new`. -/
def new (match_id : List Nat) (rng_seed : Nat) : MatchState :=
  ⟨match_id, 0, .Waiting, rng_seed, Rng.new rng_seed, [], [], [], 0, 0, 0, [], 0, [],
    ArcaneCircuitMap.new⟩

/-- `MatchState::add_player`: spawn at a random position drawn from the
match RNG. -/
def add_player (s : MatchState) (id : PlayerId) : MatchState :=
  let p := s.rng.random_position
  { s with rng := p.2,
           players := ainsertBy PlayerId.lt id (PlayerState.new id p.1) s.players,
           alive_count := s.alive_count + 1 }

/-- `MatchState::spawn_rune`. -/
def spawn_rune (s : MatchState) (position : FixedVec2) (rune_type : RuneType) :
    Nat × MatchState :=
  let id := s.next_rune_id
  (id, { s with next_rune_id := id + 1,
                runes := ainsertBy (fun a b => a < b) id (RuneState.new id position rune_type)
                  s.runes })

/-- `current_arena_bounds`: shrink from full size toward 50 percent. -/
def current_arena_bounds (s : MatchState) : Int × Int :=
  let shrink_factor := FIXED_ONE - (s.arena_shrink >>> 1)
  (fixed_mul ARENA_HALF_WIDTH shrink_factor, fixed_mul ARENA_HALF_HEIGHT shrink_factor)

/-- `is_in_bounds`. -/
def is_in_bounds (s : MatchState) (pos : FixedVec2) : Bool :=
  let b := s.current_arena_bounds
  decide (pos.x ≥ -b.1 ∧ pos.x ≤ b.1 ∧ pos.y ≥ -b.2 ∧ pos.y ≤ b.2)

/-- `eliminate_player`: mark the victim eliminated, assign a placement,
decrement the alive count, and credit the killer. -/
def eliminate_player (s : MatchState) (victim_id : PlayerId)
    (killer_id : Option PlayerId) : MatchState :=
  let victim_alive := match alookup victim_id s.players with
    | some p => p.alive
    | none => false
  if victim_alive = false then s
  else
    let player_count := s.players.length % 256
    let placement := wrapU8 ((player_count : Int) - (s.next_placement : Int))
    let s2 := { s with
      players := aupdate victim_id (fun v =>
        { v with alive := false, eliminated_tick := some s.tick,
                 eliminated_by := killer_id, placement := some placement }) s.players,
      alive_count := s.alive_count - 1,
      next_placement := (s.next_placement + 1) % 256 }
    match killer_id with
    | some kid =>
        { s2 with players := aupdate kid (fun k =>
            (({ k with kills := k.kills + 1 }).add_score SCORE_PER_KILL).1) s2.players }
    | none => s2

/-- `push_event`. -/
def push_event (s : MatchState) (event : GameEvent) : MatchState :=
  { s with pending_events := s.pending_events ++ [event] }

end MatchState

/-! ## Collision sweeps (`game/collision.rs`) -/

/-- Pairwise player collision sweep over the id-sorted player list
(`check_all_player_collisions`: all pairs `i < j` in key order). -/
def playerPairsSweep : List (PlayerId × PlayerState) → List PlayerCollision
  | [] => []
  | (_, pa) :: rest =>
      (rest.filterMap fun pb => check_player_collision pa pb.2) ++ playerPairsSweep rest

/-- `check_all_player_collisions`. -/
def check_all_player_collisions (s : MatchState) : List PlayerCollision :=
  playerPairsSweep s.players

/-- Result of a player-vs-rune collision. -/
structure RuneCollision where
  player_id : PlayerId
  rune_id : Nat
deriving DecidableEq, Repr

/-- `check_rune_collision`. -/
def check_rune_collision (player : PlayerState) (rune : RuneState) : Bool :=
  if player.alive = false ∨ rune.collected then false
  else circles_overlap player.position player.radius rune.position RuneState.RADIUS

/-- `check_all_rune_collisions`: players outer loop, runes inner loop, both
in sorted key order. -/
def check_all_rune_collisions (s : MatchState) : List RuneCollision :=
  s.players.flatMap fun pp =>
    if pp.2.alive = false then []
    else s.runes.filterMap fun rr =>
      if rr.2.collected then none
      else if check_rune_collision pp.2 rr.2 then some ⟨pp.1, rr.1⟩ else none

/-! ## Rune spawning and collection (`game/rune.rs`) -/

/-- Rune spawn configuration (`RuneSpawnConfig`). -/
structure RuneSpawnConfig where
  initial_spawn_count : Nat
  spawn_interval : Nat
  spawn_count : Nat
  max_runes : Nat
  weight_hubs : Nat
  weight_corridors : Nat
  weight_spawns : Nat
deriving DecidableEq, Repr

/-- `RuneSpawnConfig::default`. -/
def RuneSpawnConfig.default : RuneSpawnConfig := ⟨6000, 60, 25, 7000, 60, 30, 10⟩

/-- Buff duration for Speed and Shield runes (`RUNE_BUFF_DURATION`). -/
def RUNE_BUFF_DURATION : Nat := 300

/-- `random_rune_type`: weighted draw over the six rune types. -/
def random_rune_type (rng : Rng) : RuneType × Rng :=
  let p := rng.next_int 100
  let t :=
    if p.1 < 60 then RuneType.Wisdom
    else if p.1 < 80 then RuneType.Power
    else if p.1 < 90 then RuneType.Speed
    else if p.1 < 95 then RuneType.Shield
    else if p.1 < 99 then RuneType.Arcane
    else RuneType.Chaos
  (t, p.2)

/-- One iteration of the `spawn_runes` loop. -/
def spawnOneRune (cfg : RuneSpawnConfig) (emit_events : Bool) (weight_spawns : Nat)
    (s : MatchState) : MatchState :=
  let ppos := s.map.random_pellet_position s.rng cfg.weight_hubs cfg.weight_corridors
    weight_spawns
  let prt := random_rune_type ppos.2
  let s2 := { s with rng := prt.2 }
  let pid := s2.spawn_rune ppos.1 prt.1
  let s3 := pid.2
  -- `GameEvent::rune_spawned` is called by `rune.rs` but absent from
  -- `events.rs`; modelled with the lowest (`Other`) priority.
  if emit_events then
    s3.push_event (GameEvent.mkEvent s3.tick .Other (.RuneSpawned pid.1 prt.1 ppos.1))
  else s3

/-- The counted `spawn_runes` loop. -/
def spawnRunesLoop (cfg : RuneSpawnConfig) (emit_events : Bool) (weight_spawns : Nat) :
    Nat → MatchState → MatchState
  | 0, s => s
  | n + 1, s => spawnRunesLoop cfg emit_events weight_spawns n
      (spawnOneRune cfg emit_events weight_spawns s)

/-- `spawn_runes`: capacity-gated spawning of `count` runes. -/
def spawn_runes (s : MatchState) (cfg : RuneSpawnConfig) (count : Nat)
    (emit_events : Bool) (weight_spawns_override : Option Nat) : MatchState :=
  let uncollected := (s.runes.filter fun rr => rr.2.collected = false).length
  if uncollected ≥ cfg.max_runes then s
  else
    let spawn_count := min count (cfg.max_runes - uncollected)
    let weight_spawns := weight_spawns_override.getD cfg.weight_spawns
    spawnRunesLoop cfg emit_events weight_spawns spawn_count s

/-- `maybe_spawn_runes`: initial burst on the first tick, then
interval-gated waves. -/
def maybe_spawn_runes (s : MatchState) (cfg : RuneSpawnConfig) : MatchState :=
  if s.phase ≠ MatchPhase.Playing then s
  else
    let s1 := if s.tick = 1 ∧ s.runes = [] then
        spawn_runes s cfg cfg.initial_spawn_count false none
      else s
    if s1.tick % cfg.spawn_interval = 0 then
      spawn_runes s1 cfg cfg.spawn_count true (some 0)
    else s1

/-- `apply_chaos_effect`: a uniform 4-way draw from the match RNG. -/
def apply_chaos_effect (s : MatchState) (player_id : PlayerId) : MatchState :=
  let p := s.rng.next_int 4
  let s2 := { s with rng := p.2 }
  { s2 with players := aupdate player_id (fun player =>
      if p.1 = 0 then { player with speed_buff_ticks := 600 }
      else if p.1 = 1 then { player with shield_buff_ticks := 600 }
      else if p.1 = 2 then { player with ability_cooldown := 0 }
      else (player.add_score 50).1) s2.players }

/-- `collect_rune`: mark the rune collected, then apply points, buffs and
possible evolution to the collecting player; returns the collection event
or `none`. -/
def collect_rune (s : MatchState) (player_id : PlayerId) (rune_id : Nat) :
    Option GameEvent × MatchState :=
  match alookup rune_id s.runes with
  | none => (none, s)
  | some rune =>
      if rune.collected then (none, s)
      else
        let s1 := { s with runes := aupdate rune_id (fun r =>
          { r with collected := true, collected_tick := some s.tick,
                   collected_by := some player_id }) s.runes }
        let rune_type := rune.rune_type
        match alookup player_id s1.players with
        | none => (none, s1)
        | some player =>
            if player.alive = false then (none, s1)
            else
              let points :=
                if player.has_shrine_buff .Wisdom then rune.value * 2 else rune.value
              let player1 :=
                match rune_type with
                | .Speed => { player with speed_buff_ticks := RUNE_BUFF_DURATION }
                | .Shield => { player with shield_buff_ticks := RUNE_BUFF_DURATION }
                | _ => player
              let old_form := player1.form
              let pres := ({ player1 with
                runes_collected := player1.runes_collected + 1 }).add_score points
              let s2 := { s1 with players := aupdate player_id (fun _ => pres.1) s1.players }
              let event := GameEvent.rune_collected s2.tick player_id rune_id rune_type
                points pres.1.score
              let s3 :=
                if pres.2 then
                  s2.push_event (GameEvent.form_evolved s2.tick player_id old_form pres.1.form)
                else s2
              let s4 := if rune_type = .Chaos then apply_chaos_effect s3 player_id else s3
              (some event, s4)

/-! ## Shrine mechanics (`game/shrine.rs`) -/

/-- Shrine configuration (`ShrineConfig`). -/
structure ShrineConfig where
  channel_rate : Int
  buff_duration : Nat
deriving DecidableEq, Repr

/-- `ShrineConfig::default`: channel rate `65536 / 300 = 218` (floor), buff
duration 1800 ticks. -/
def ShrineConfig.default : ShrineConfig := ⟨218, 1800⟩

/-- The four fixed shrine positions (`SHRINE_POSITIONS`). -/
def SHRINE_POSITIONS : List (Int × Int × ShrineType) :=
  [(2293760, 2293760, .Wisdom), (-2293760, 2293760, .Power),
   (-2293760, -2293760, .Speed), (2293760, -2293760, .Shield)]

/-- `spawn_shrines`: push the four fixed shrines. -/
def spawn_shrines (s : MatchState) : MatchState :=
  { s with shrines := s.shrines ++ (SHRINE_POSITIONS.enum.map fun p =>
      ShrineState.new p.1 ⟨p.2.1, p.2.2.1⟩ p.2.2.2) }

/-- Player snapshot used by the shrine scan (id, position, radius, alive). -/
structure PSnap where
  id : PlayerId
  pos : FixedVec2
  radius : Int
  alive : Bool
deriving DecidableEq, Repr

/-- `is_player_on_shrine`. -/
def is_player_on_shrine (pos : FixedVec2) (radius : Int) (shrine : ShrineState) : Bool :=
  circles_overlap pos radius shrine.position ShrineState.RADIUS

/-- Deferred shrine mutation (`ShrineAction`). -/
inductive ShrineAction
  | StartChannel (shrine_id : Nat) (player_id : PlayerId)
  | ContinueChannel (shrine_id : Nat) (progress : Int)
  | CompleteChannel (shrine_id : Nat) (player_id : PlayerId) (shrine_type : ShrineType)
  | InterruptChannel (shrine_id : Nat) (player_id : PlayerId)
  | StartNewChannel (shrine_id : Nat) (old_player new_player : PlayerId)
deriving DecidableEq, Repr

/-- Scan phase of `process_shrines`: collect actions and events per active
shrine, in shrine order. -/
def shrineScan (tick : Nat) (cfg : ShrineConfig) (players : List PSnap) :
    List ShrineState → List ShrineAction × List GameEvent
  | [] => ([], [])
  | shrine :: rest =>
      let tl := shrineScan tick cfg players rest
      if shrine.active = false then tl
      else
        let player_on_shrine :=
          (players.find? fun q => q.alive && is_player_on_shrine q.pos q.radius shrine).map
            PSnap.id
        match shrine.channeling_player, player_on_shrine with
        | none, some new_player =>
            (ShrineAction.StartChannel shrine.id new_player :: tl.1,
             GameEvent.shrine_channel_started tick new_player shrine.id :: tl.2)
        | some current, some new_player =>
            if current = new_player then
              let new_progress := satAdd32 shrine.channel_progress cfg.channel_rate
              if new_progress ≥ FIXED_ONE then
                (ShrineAction.CompleteChannel shrine.id current shrine.shrine_type :: tl.1,
                 GameEvent.shrine_activated tick current shrine.id :: tl.2)
              else
                (ShrineAction.ContinueChannel shrine.id new_progress :: tl.1, tl.2)
            else
              (ShrineAction.StartNewChannel shrine.id current new_player :: tl.1,
               GameEvent.shrine_channel_interrupted tick current shrine.id ::
                 GameEvent.shrine_channel_started tick new_player shrine.id :: tl.2)
        | some current, none =>
            (ShrineAction.InterruptChannel shrine.id current :: tl.1,
             GameEvent.shrine_channel_interrupted tick current shrine.id :: tl.2)
        | none, none => tl

/-- Update the first shrine with the given id (`iter_mut().find`). -/
def shrineUpdateFirst (id : Nat) (f : ShrineState → ShrineState) :
    List ShrineState → List ShrineState
  | [] => []
  | sh :: rest =>
      if sh.id = id then f sh :: rest else sh :: shrineUpdateFirst id f rest

/-- Cooldown decay of inactive shrines (step 3 of `process_shrines`). -/
def decayShrineCooldown (sh : ShrineState) : ShrineState :=
  if sh.active = false ∧ sh.cooldown > 0 then
    let c := satSub32 sh.cooldown FIXED_ONE
    if c ≤ 0 then { sh with cooldown := c, active := true } else { sh with cooldown := c }
  else sh

/-- Apply one deferred shrine action (step 4 of `process_shrines`). -/
def applyShrineAction (cfg : ShrineConfig) (s : MatchState) (a : ShrineAction) : MatchState :=
  match a with
  | .StartChannel shrine_id player_id =>
      { s with shrines := shrineUpdateFirst shrine_id (fun sh =>
          { sh with channeling_player := some player_id,
                    channel_progress := cfg.channel_rate }) s.shrines }
  | .ContinueChannel shrine_id progress =>
      { s with shrines := shrineUpdateFirst shrine_id (fun sh =>
          { sh with channel_progress := progress }) s.shrines }
  | .CompleteChannel shrine_id player_id shrine_type =>
      let s2 := { s with shrines := shrineUpdateFirst shrine_id (fun sh =>
        { sh with active := false,
                  cooldown := wrap32 ((ShrineState.COOLDOWN_TICKS : Int) * FIXED_ONE / 60),
                  channeling_player := none, channel_progress := 0 }) s.shrines }
      { s2 with players := aupdate player_id (fun p =>
          p.add_shrine_buff shrine_type cfg.buff_duration) s2.players }
  | .InterruptChannel shrine_id _ =>
      { s with shrines := shrineUpdateFirst shrine_id (fun sh =>
          { sh with channeling_player := none, channel_progress := 0 }) s.shrines }
  | .StartNewChannel shrine_id _ new_player =>
      { s with shrines := shrineUpdateFirst shrine_id (fun sh =>
          { sh with channeling_player := some new_player,
                    channel_progress := cfg.channel_rate }) s.shrines }

/-- `process_shrines`: scan, decay cooldowns, apply actions, push events. -/
def process_shrines (s : MatchState) (cfg : ShrineConfig) : MatchState :=
  let players := s.players.map fun pp => PSnap.mk pp.1 pp.2.position pp.2.radius pp.2.alive
  let scan := shrineScan s.tick cfg players s.shrines
  let s2 := { s with shrines := s.shrines.map decayShrineCooldown }
  let s3 := scan.1.foldl (applyShrineAction cfg) s2
  scan.2.foldl MatchState.push_event s3

/-! ## Abilities (`game/ability.rs`) -/

/-- Ability cooldowns in ticks by form (`ABILITY_COOLDOWNS`). -/
def ABILITY_COOLDOWNS : List Nat := [180, 300, 360, 420, 480]

/-- Dash speed (15.0). -/
def DASH_SPEED : Int := 983040

/-- Phase-shift invulnerability ticks. -/
def PHASE_SHIFT_TICKS : Nat := 20

/-- Repel radius (5.0). -/
def REPEL_RADIUS : Int := 327680

/-- Repel force (8.0). -/
def REPEL_FORCE : Int := 524288

/-- Gravity-well radius (7.0). -/
def GRAVITY_WELL_RADIUS : Int := 458752

/-- Gravity-well duration ticks. -/
def GRAVITY_WELL_TICKS : Nat := 180

/-- Consume radius multiplier (1.5). -/
def CONSUME_RADIUS_MULT : Int := 98304

/-- `ability_for_form`. -/
def ability_for_form : Form → AbilityType
  | .Spark => .Dash
  | .Glyph => .PhaseShift
  | .Ward => .Repel
  | .Arcane => .GravityWell
  | .Ancient => .Consume

/-- `activate_dash`. -/
def activate_dash (s : MatchState) (player_id : PlayerId) (current_velocity : FixedVec2) :
    MatchState :=
  { s with players := aupdate player_id (fun player =>
      let direction :=
        if current_velocity.length_squared > 0 then current_velocity.normalize
        else ⟨FIXED_ONE, 0⟩
      { player with dash_velocity := some (direction.scale DASH_SPEED) }) s.players }

/-- `activate_phase_shift`. -/
def activate_phase_shift (s : MatchState) (player_id : PlayerId) : MatchState :=
  { s with players := aupdate player_id (fun player =>
      { player with invulnerable_ticks := PHASE_SHIFT_TICKS }) s.players }

/-- `activate_repel`: push all alive players strictly inside the repel
radius away from the caster. -/
def activate_repel (s : MatchState) (player_id : PlayerId) (position : FixedVec2) :
    MatchState :=
  let radius_sq := fixed_mul REPEL_RADIUS REPEL_RADIUS
  let players_to_push := s.players.filterMap fun pp =>
    if pp.1 ≠ player_id ∧ pp.2.alive
        ∧ position.distance_squared pp.2.position < radius_sq then
      some (pp.1, pp.2.position)
    else none
  players_to_push.foldl (fun s2 (op : PlayerId × FixedVec2) =>
    { s2 with players := aupdate op.1 (fun (other : PlayerState) =>
        let diff := op.2.sub position
        if diff.length_squared > 0 then
          { other with velocity := other.velocity.add ((diff.normalize).scale REPEL_FORCE) }
        else other) s2.players }) s

/-- `activate_gravity_well`. -/
def activate_gravity_well (s : MatchState) (player_id : PlayerId) (position : FixedVec2) :
    MatchState :=
  { s with active_abilities := s.active_abilities ++
      [⟨.GravityWell, player_id, position, GRAVITY_WELL_TICKS, GRAVITY_WELL_RADIUS⟩] }

/-- `activate_consume`. -/
def activate_consume (s : MatchState) (player_id : PlayerId) : MatchState :=
  let position := match alookup player_id s.players with
    | some p => p.position
    | none => FixedVec2.ZERO
  { s with active_abilities := s.active_abilities ++
      [⟨.Consume, player_id, position, 60, CONSUME_RADIUS_MULT⟩] }

/-- `activate_ability`: dispatch on the form-specific ability, set the
cooldown, and emit the use event. -/
def activate_ability (s : MatchState) (player_id : PlayerId) :
    Option GameEvent × MatchState :=
  match alookup player_id s.players with
  | none => (none, s)
  | some player =>
      if player.alive = false ∨ player.ability_ready = false then (none, s)
      else
        let form := player.form
        let position := player.position
        let velocity := player.velocity
        let ability_type := ability_for_form form
        let cooldown : Int := wrap32 ((ABILITY_COOLDOWNS.getD form.idx 0 : Int) * FIXED_ONE)
        let s2 := match ability_type with
          | .Dash => activate_dash s player_id velocity
          | .PhaseShift => activate_phase_shift s player_id
          | .Repel => activate_repel s player_id position
          | .GravityWell => activate_gravity_well s player_id position
          | .Consume => activate_consume s player_id
        let s3 := { s2 with players := aupdate player_id (fun p =>
          { p with ability_cooldown := cooldown }) s2.players }
        (some (GameEvent.ability_used s3.tick player_id ability_type.idx), s3)

/-- `process_active_abilities`: gravity wells slow non-owning players, then
all field effects decay and expire. -/
def process_active_abilities (s : MatchState) : MatchState :=
  let gravity_wells := s.active_abilities.filterMap fun e =>
    if e.ability_type = .GravityWell then some (e.position, e.radius, e.source_player)
    else none
  let s2 := gravity_wells.foldl (fun s2 well =>
    let radius_sq := fixed_mul well.2.1 well.2.1
    { s2 with players := s2.players.map fun pp =>
        if pp.1 = well.2.2 ∨ pp.2.alive = false then pp
        else if well.1.distance_squared pp.2.position < radius_sq then
          (pp.1, { pp.2 with velocity := pp.2.velocity.scale 32768 })
        else pp }) s
  { s2 with active_abilities := s2.active_abilities.filterMap fun e =>
      let e2 := { e with remaining_ticks := e.remaining_ticks - 1 }
      if e2.remaining_ticks > 0 then some e2 else none }

/-! ## Tick simulation (`game/tick.rs`) -/

/-- Match duration (`MATCH_DURATION_TICKS` in `lib.rs`). -/
def MATCH_DURATION_TICKS : Nat := 5400

/-- Jump velocity (12.0). -/
def JUMP_VELOCITY : Int := 786432

/-- Result of one tick (`TickResult`). -/
structure TickResult where
  events : List GameEvent
  match_ended : Bool
  winner : Option PlayerId
deriving Repr

/-- `TickResult::default`. -/
def TickResult.default : TickResult := ⟨[], false, none⟩

/-- Match configuration (`MatchConfig`). -/
structure MatchConfig where
  rune_spawn : RuneSpawnConfig
  shrine : ShrineConfig
  shrink_start_tick : Nat
  shrink_rate : Int
  zone_damage_rate : Int
deriving DecidableEq, Repr

/-- `MatchConfig::default`. -/
def MatchConfig.default : MatchConfig :=
  ⟨RuneSpawnConfig.default, ShrineConfig.default, 1800, 18, 3276⟩

/-- `Vec::swap_remove`: replace index `i` with the last element and drop
the last. -/
def swapRemove {α : Type} (l : List α) (i : Nat) : List α :=
  if i + 1 = l.length then l.dropLast
  else match l.getLast? with
    | none => l
    | some lastE => if i < l.length then (l.set i lastE).dropLast else l

/-- The removal sweep of `update_shrine_buffs` (index-stepping loop with
`swap_remove`), fuelled for structural recursion. -/
def pruneShrineBuffs : Nat → Nat → List ShrineType × List Nat → List ShrineType × List Nat
  | 0, _, p => p
  | fuel + 1, i, (buffs, ticks) =>
      if i < buffs.length then
        if ticks.getD i 0 = 0 then
          pruneShrineBuffs fuel i (swapRemove buffs i, swapRemove ticks i)
        else pruneShrineBuffs fuel (i + 1) (buffs, ticks)
      else (buffs, ticks)

/-- `PlayerState::update_shrine_buffs`: decay all timers, then remove
expired buffs by `swap_remove`. -/
def PlayerState.update_shrine_buffs (p : PlayerState) : PlayerState :=
  let ticks := p.shrine_buff_ticks.map fun t => t - 1
  let pruned := pruneShrineBuffs (2 * p.shrine_buffs.length + 1) 0 (p.shrine_buffs, ticks)
  { p with shrine_buffs := pruned.1, shrine_buff_ticks := pruned.2 }

/-- Movement-and-flags step of `apply_inputs` for one player (the loop
body). -/
def applyInputToPlayer (tick : Nat) (input : InputFrame) (player : PlayerState) :
    PlayerState :=
  let move_dir := input.move_direction
  let speed := player.speed
  let move_len_sq := move_dir.length_squared
  let velocity :=
    if move_len_sq > FIXED_ONE then (move_dir.normalize).scale speed
    else if move_len_sq > 0 then move_dir.scale speed
    else FixedVec2.ZERO
  let player1 := { player with velocity := velocity }
  if input.jump_pressed ∧ player1.can_jump tick then
    { player1 with
        velocity := ⟨player1.velocity.x, wrap32 (player1.velocity.y + JUMP_VELOCITY)⟩,
        last_jump_tick := tick }
  else player1

/-- One step of the movement fold of `apply_inputs` (the `for` body over
the input map). -/
def applyInputStep (acc : MatchState × List PlayerId) (pi : PlayerId × InputFrame) :
    MatchState × List PlayerId :=
  match alookup pi.1 acc.1.players with
  | none => acc
  | some player =>
      if player.alive = false then acc
      else
        let newPlayers := aupdate pi.1
          (fun (_ : PlayerState) => applyInputToPlayer acc.1.tick pi.2 player) acc.1.players
        let st := { acc.1 with players := newPlayers }
        let acts :=
          if pi.2.ability_pressed ∧ player.ability_ready then acc.2 ++ [pi.1] else acc.2
        (st, acts)

/-- `apply_inputs`: per-player movement in input order, then queued ability
activations. -/
def apply_inputs (s : MatchState) (inputs : List (PlayerId × InputFrame)) : MatchState :=
  let res := inputs.foldl applyInputStep (s, [])
  res.2.foldl (fun s2 pid =>
    let r := activate_ability s2 pid
    match r.1 with
    | some e => r.2.push_event e
    | none => r.2) res.1

/-- Physics integration for one player (`update_physics` loop body). -/
def physicsStep (hw hh : Int) (player : PlayerState) : PlayerState :=
  if player.alive = false then player
  else
    let velocity := player.velocity
    let velocity :=
      if player.speed_buff_ticks > 0 then
        FixedVec2.mk (fixed_mul velocity.x 91750) (fixed_mul velocity.y 91750)
      else velocity
    let velocity :=
      if player.has_shrine_buff .Speed then
        FixedVec2.mk (fixed_mul velocity.x 78643) (fixed_mul velocity.y 78643)
      else velocity
    let vdash := match player.dash_velocity with
      | some dash_vel => (velocity.add dash_vel, (none : Option FixedVec2))
      | none => (velocity, player.dash_velocity)
    let velocity := vdash.1
    let dx := fixed_mul velocity.x TICK_DURATION
    let dy := fixed_mul velocity.y TICK_DURATION
    let px := min (max (wrap32 (player.position.x + dx)) (-hw)) hw
    let py := min (max (wrap32 (player.position.y + dy)) (-hh)) hh
    let cooldown :=
      if player.ability_cooldown > 0 then satSub32 player.ability_cooldown FIXED_ONE
      else player.ability_cooldown
    let p2 := { player with
      position := ⟨px, py⟩,
      dash_velocity := vdash.2,
      ability_cooldown := cooldown,
      speed_buff_ticks :=
        if player.speed_buff_ticks > 0 then player.speed_buff_ticks - 1
        else player.speed_buff_ticks,
      shield_buff_ticks :=
        if player.shield_buff_ticks > 0 then player.shield_buff_ticks - 1
        else player.shield_buff_ticks,
      invulnerable_ticks :=
        if player.invulnerable_ticks > 0 then player.invulnerable_ticks - 1
        else player.invulnerable_ticks }
    let p3 := p2.update_shrine_buffs
    { p3 with velocity := ⟨fixed_mul p3.velocity.x (FIXED_ONE - 3276),
                           fixed_mul p3.velocity.y (FIXED_ONE - 3276)⟩ }

/-- `update_physics`: buffs, dash, integration, clamping, timer decay and
friction for every alive player in key order. -/
def update_physics (s : MatchState) : MatchState :=
  let b := s.current_arena_bounds
  { s with players := s.players.map fun pp => (pp.1, physicsStep b.1 b.2 pp.2) }

/-- `update_arena_shrink`. -/
def update_arena_shrink (s : MatchState) (cfg : MatchConfig) : MatchState :=
  if s.tick < cfg.shrink_start_tick then s
  else { s with arena_shrink := min (wrap32 (s.arena_shrink + cfg.shrink_rate)) FIXED_ONE }

/-- `process_player_collisions`: eliminate every collision loser and emit
elimination events. -/
def process_player_collisions (s : MatchState) : MatchState :=
  let collisions := check_all_player_collisions s
  collisions.foldl (fun s2 collision =>
    let placement := wrapU8 ((s2.players.length % 256 : Int) - (s2.next_placement : Int))
    let s3 := s2.eliminate_player collision.loser (some collision.winner)
    s3.push_event (GameEvent.player_eliminated s3.tick collision.loser
      (some collision.winner) placement)) s

/-- `process_rune_collisions`. -/
def process_rune_collisions (s : MatchState) : MatchState :=
  let collisions := check_all_rune_collisions s
  collisions.foldl (fun s2 collision =>
    let r := collect_rune s2 collision.player_id collision.rune_id
    match r.1 with
    | some e => r.2.push_event e
    | none => r.2) s

/-- Health regeneration rate inside the zone (`REGEN_RATE`). -/
def REGEN_RATE : Int := 328

/-- Zone damage for one player (`process_zone_damage` loop body): returns
the damaged player. -/
def zoneDamageStep (hw hh : Int) (cfg : MatchConfig) (player : PlayerState) : PlayerState :=
  let outside_x := player.position.x < -hw ∨ player.position.x > hw
  let outside_y := player.position.y < -hh ∨ player.position.y > hh
  if outside_x ∨ outside_y then
    let dist_outside_x :=
      if player.position.x < -hw then fixed_abs (satSub32 (-hw) player.position.x)
      else if player.position.x > hw then fixed_abs (satSub32 player.position.x hw)
      else 0
    let dist_outside_y :=
      if player.position.y < -hh then fixed_abs (satSub32 (-hh) player.position.y)
      else if player.position.y > hh then fixed_abs (satSub32 player.position.y hh)
      else 0
    let dist_factor := fixed_mul (satAdd32 dist_outside_x dist_outside_y) 655
    let damage := satAdd32 cfg.zone_damage_rate dist_factor
    let has_shield := player.shield_buff_ticks > 0 ∨ player.has_shrine_buff .Shield
    let shield_mult : Int := if has_shield then 32768 else FIXED_ONE
    { player with health := satSub32 player.health (fixed_mul damage shield_mult) }
  else
    { player with health := min (satAdd32 player.health REGEN_RATE) player.max_health }

/-- `process_zone_damage`: damage or regenerate every alive player, then
eliminate those at zero health, emitting events. -/
def process_zone_damage (s : MatchState) (cfg : MatchConfig) : MatchState :=
  let b := s.current_arena_bounds
  let s2 := { s with players := s.players.map fun (pp : PlayerId × PlayerState) =>
    if pp.2.alive = false then pp else (pp.1, zoneDamageStep b.1 b.2 cfg pp.2) }
  let to_eliminate := s2.players.filterMap fun pp =>
    if pp.2.alive ∧ pp.2.health ≤ 0 then some pp.1 else none
  to_eliminate.foldl (fun s3 pid =>
    let placement := (s3.players.length % 256) - s3.next_placement
    let event := GameEvent.player_eliminated s3.tick pid none placement
    (s3.eliminate_player pid none).push_event event) s2

/-- Winner selection of `end_match`: the alive player maximal by
(score, id), the last such element winning ties as `max_by_key` does. -/
def endMatchWinner (players : List (PlayerId × PlayerState)) : Option PlayerId :=
  players.foldl (fun best pp =>
    if pp.2.alive = false then best
    else match best with
      | none => some (pp.1, pp.2.score)
      | some b =>
          if pp.2.score > b.2
              ∨ (pp.2.score = b.2 ∧ cmpBytes pp.1.bytes b.1.bytes ≠ Ordering.lt) then
            some (pp.1, pp.2.score)
          else some b) none
    |>.map Prod.fst

/-- `end_match`: set the phase, pick the winner, assign first place, emit
the match-end event. -/
def end_match (s : MatchState) (result : TickResult) : MatchState × TickResult :=
  let s2 := { s with phase := .Ended }
  let winner := endMatchWinner s2.players
  let s3 := match winner with
    | some winner_id =>
        { s2 with players := aupdate winner_id (fun p =>
            { p with placement := some 1 }) s2.players }
    | none => s2
  let s4 := s3.push_event (GameEvent.match_ended s3.tick winner)
  (s4, { result with match_ended := true, winner := winner })

/-- `check_end_conditions`. -/
def check_end_conditions (s : MatchState) (result : TickResult) :
    MatchState × TickResult :=
  if s.tick ≥ MATCH_DURATION_TICKS then end_match s result
  else if s.alive_count ≤ 1 then end_match s result
  else (s, result)

/-- `tick`: one authoritative simulation step.  Returns the updated state
and the tick result whose `events` are the drained pending events. -/
def tickFn (s : MatchState) (inputs : List (PlayerId × InputFrame)) (cfg : MatchConfig) :
    MatchState × TickResult :=
  match s.phase with
  | .Waiting => (s, TickResult.default)
  | .Countdown ticks_remaining =>
      if ticks_remaining = 0 then
        (spawn_shrines { s with phase := .Playing }, TickResult.default)
      else
        ({ s with phase := .Countdown (ticks_remaining - 1) }, TickResult.default)
  | .Ended => (s, { TickResult.default with match_ended := true })
  | .Playing =>
      let s0 := { s with tick := (s.tick + 1) % 4294967296, phase := MatchPhase.Playing }
      let s1 := apply_inputs s0 inputs
      let s2 := update_physics s1
      let s3 := update_arena_shrink s2 cfg
      let s4 := process_player_collisions s3
      let s5 := process_rune_collisions s4
      let s6 := process_zone_damage s5 cfg
      let s7 := maybe_spawn_runes s6 cfg.rune_spawn
      let s8 := process_shrines s7 cfg.shrine
      let s9 := process_active_abilities s8
      let p10 := check_end_conditions s9 TickResult.default
      let s11 := { p10.1 with pending_events := [] }
      (s11, { p10.2 with events := p10.1.pending_events })

/-! ## State hashing (`core/hash.rs`, `MatchState::compute_hash`) -/

/-- Domain separator bytes of `b"RUNE_RELIC_STATE_V1"`. -/
def STATE_DOMAIN : List Nat :=
  [82, 85, 78, 69, 95, 82, 69, 76, 73, 67, 95, 83, 84, 65, 84, 69, 95, 86, 49]

/-- Little-endian bytes of a u32. -/
def le32 (n : Nat) : List Nat :=
  [n % 256, n / 256 % 256, n / 65536 % 256, n / 16777216 % 256]

/-- Little-endian bytes of a u64. -/
def le64 (n : Nat) : List Nat :=
  le32 (n % 4294967296) ++ le32 (n / 4294967296)

/-- Little-endian bytes of an i32 (`update_i32`). -/
def i32le (x : Int) : List Nat := le32 ((x % 4294967296).toNat)

/-- Bytes of a `FixedVec2` (`update_vec2`). -/
def vec2le (v : FixedVec2) : List Nat := i32le v.x ++ i32le v.y

/-- Byte of a bool (`update_bool`). -/
def boolByte (b : Bool) : List Nat := [if b then 1 else 0]

/-- `PlayerState::hash_into`: the byte sequence a player feeds to the
state hasher. -/
def PlayerState.hashBytes (p : PlayerState) : List Nat :=
  p.id.bytes ++ vec2le p.position ++ vec2le p.velocity ++ [p.form.idx]
    ++ le32 p.score ++ boolByte p.alive ++ le32 p.kills
    ++ i32le p.health ++ le32 p.speed_buff_ticks ++ le32 p.shield_buff_ticks
    ++ le32 p.invulnerable_ticks
    ++ (p.shrine_buffs.enum.flatMap fun st =>
        [st.2.idx] ++ (match p.shrine_buff_ticks.get? st.1 with
          | some t => le32 t
          | none => []))

/-- `MatchState::compute_hash`: the domain-separated SHA-256 over tick,
seed, players, runes, shrines, active effects, arena shrink and alive
count, in the source's update order. -/
def MatchState.compute_hash (s : MatchState) : List Nat :=
  Sha256.sha256 (STATE_DOMAIN ++ le32 s.tick ++ le64 s.rng_seed
    ++ (s.players.flatMap fun pp => pp.2.hashBytes)
    ++ (s.runes.flatMap fun rr =>
        le32 rr.1 ++ vec2le rr.2.position ++ [rr.2.rune_type.idx] ++ boolByte rr.2.collected)
    ++ (s.shrines.flatMap fun sh =>
        [sh.id % 256] ++ boolByte sh.active ++ i32le sh.channel_progress ++ i32le sh.cooldown)
    ++ (s.active_abilities.flatMap fun e =>
        [e.ability_type.idx] ++ vec2le e.position ++ le32 e.remaining_ticks)
    ++ i32le s.arena_shrink ++ le32 s.alive_count)

/-! ## Transcript (`proof/transcript.rs`) -/

/-- Match metadata (`MatchMetadata`). -/
structure MatchMetadata where
  match_id : List Nat
  block_hash : List Nat
  player_ids : List (List Nat)
  rng_seed : Nat
  start_timestamp : Nat
  config_hash : List Nat
deriving DecidableEq, Repr

/-- Initial snapshot of one player (`InitialPlayerState`). -/
structure InitialPlayerState where
  player_id : List Nat
  position : FixedVec2
  form : Nat
deriving DecidableEq, Repr

/-- Initial state snapshot (`InitialMatchState`). -/
structure InitialMatchState where
  players : List InitialPlayerState
  rng_state : Nat × Nat
  state_hash : List Nat
deriving DecidableEq, Repr

/-- Per-player input record (`PlayerInputRecord`). -/
structure PlayerInputRecord where
  player_id : List Nat
  deltas : List InputDelta
  input_count : Nat
deriving DecidableEq, Repr

/-- State checkpoint (`StateCheckpoint`). -/
structure StateCheckpoint where
  tick : Nat
  state_hash : List Nat
  rng_state : Nat × Nat
deriving DecidableEq, Repr

/-- Final match result (`MatchResult`). -/
structure MatchResult where
  end_tick : Nat
  winner_id : Option (List Nat)
  placements : List (List Nat × Nat × Nat)
  final_state_hash : List Nat
deriving DecidableEq, Repr

/-- Compact transcript event (`TranscriptEvent`). -/
inductive TranscriptEvent
  | PlayerEliminated (tick : Nat) (victim_id : List Nat) (killer_id : Option (List Nat))
      (placement : Nat)
  | FormEvolved (tick : Nat) (player_id : List Nat) (new_form : Nat)
  | RuneCollected (tick : Nat) (player_id : List Nat) (rune_id : Nat) (points : Nat)
  | ShrineActivated (tick : Nat) (player_id : List Nat) (shrine_id : Nat)
deriving DecidableEq, Repr

/-- Complete match transcript (`MatchTranscript`). -/
structure MatchTranscript where
  version : Nat
  metadata : MatchMetadata
  initial_state : InitialMatchState
  player_inputs : List PlayerInputRecord
  checkpoints : List StateCheckpoint
  result : Option MatchResult
  events : List TranscriptEvent
deriving Repr

/-! ## Verification by replay (`proof/verify.rs`) -/

/-- Result of verifying one checkpoint (`CheckpointResult`). -/
structure CheckpointResult where
  tick : Nat
  expected : List Nat
  computed : List Nat
  valid : Bool
deriving DecidableEq, Repr

/-- Verification errors (`VerificationError`). -/
inductive VerificationError
  | VersionMismatch (expected got : Nat)
  | InitialStateMismatch (expected computed : List Nat)
  | CheckpointMismatch (tick : Nat) (expected computed : List Nat)
  | FinalStateMismatch (expected computed : List Nat)
  | InvalidInputBuffer (player_id : List Nat)
  | ResultMismatch
  | SeedMismatch (expected got : Nat)
  | IncompleteTranscript
deriving DecidableEq, Repr

/-- Verification result (`VerificationResult`). -/
structure VerificationResult where
  valid : Bool
  computed_final_hash : List Nat
  expected_final_hash : List Nat
  checkpoint_results : List CheckpointResult
  error : Option VerificationError
deriving Repr

/-- `reconstruct_initial_state`: fresh state from the metadata, with the
recorded RNG state and the recorded players at their snapshot positions. -/
def reconstruct_initial_state (t : MatchTranscript) : MatchState :=
  let s0 := MatchState.new t.metadata.match_id t.metadata.rng_seed
  let s1 := { s0 with rng := ⟨t.initial_state.rng_state.1, t.initial_state.rng_state.2⟩ }
  t.initial_state.players.foldl (fun s player =>
    let player_id := PlayerId.mk player.player_id
    let pstate := { PlayerState.new player_id player.position with
      form := (Form.from_index player.form).getD .Spark }
    { s with players := ainsertBy PlayerId.lt player_id pstate s.players,
             alive_count := s.alive_count + 1 }) s1

/-- `build_input_lookup`: per-player delta list keyed by player id. -/
def build_input_lookup (t : MatchTranscript) :
    List (PlayerId × List (Nat × InputFrame)) :=
  t.player_inputs.foldl (fun lookup record =>
    ainsertBy PlayerId.lt (PlayerId.mk record.player_id)
      (record.deltas.map fun d => (d.tick, d.frame)) lookup) []

/-- `get_inputs_at_tick`: for each player the most recent delta at or
before the tick, idle before the first delta. -/
def get_inputs_at_tick (lookup : List (PlayerId × List (Nat × InputFrame)))
    (tick : Nat) : List (PlayerId × InputFrame) :=
  lookup.map fun pf =>
    (pf.1, ((pf.2.reverse.find? fun d => d.1 ≤ tick).map Prod.snd).getD InputFrame.new)

/-- The all-zero 32-byte hash (`[0; 32]`). -/
def zeros32 : List Nat := List.replicate 32 0

/-- The replay loop of `verify_transcript` (ticks `1 ..= end_tick` with
fail-fast checkpoint comparison).  `Sum.inl` carries the surviving state,
checkpoint index and checkpoint results; `Sum.inr` is the early mismatch
return. -/
def verifyLoop (lookup : List (PlayerId × List (Nat × InputFrame)))
    (checkpoints : List StateCheckpoint) (cfg : MatchConfig) :
    Nat → Nat → MatchState → Nat → List CheckpointResult →
      Sum (MatchState × Nat × List CheckpointResult) VerificationResult
  | 0, _, state, ckIdx, results => Sum.inl (state, ckIdx, results)
  | rem + 1, tick_num, state, ckIdx, results =>
      let tick_inputs := get_inputs_at_tick lookup tick_num
      let p := tickFn state tick_inputs cfg
      match checkpoints.get? ckIdx with
      | some cp =>
          if cp.tick = p.1.tick then
            let computed := p.1.compute_hash
            let valid := decide (computed = cp.state_hash)
            let results2 := results ++ [⟨cp.tick, cp.state_hash, computed, valid⟩]
            if valid then verifyLoop lookup checkpoints cfg rem (tick_num + 1) p.1
              (ckIdx + 1) results2
            else Sum.inr ⟨false, computed, cp.state_hash, results2,
              some (.CheckpointMismatch cp.tick cp.state_hash computed)⟩
          else verifyLoop lookup checkpoints cfg rem (tick_num + 1) p.1 ckIdx results
      | none => verifyLoop lookup checkpoints cfg rem (tick_num + 1) p.1 ckIdx results

/-- `verify_transcript`: full deterministic replay with initial-state,
checkpoint and final-state hash comparison. -/
def verify_transcript (t : MatchTranscript) : VerificationResult :=
  match t.result with
  | none => ⟨false, zeros32, zeros32, [], some .IncompleteTranscript⟩
  | some result =>
      let state0 := reconstruct_initial_state t
      let initial_hash := state0.compute_hash
      if initial_hash ≠ t.initial_state.state_hash then
        ⟨false, initial_hash, t.initial_state.state_hash, [],
          some (.InitialStateMismatch t.initial_state.state_hash initial_hash)⟩
      else
        let lookup := build_input_lookup t
        let state1 := { state0 with phase := MatchPhase.Playing }
        match verifyLoop lookup t.checkpoints MatchConfig.default result.end_tick 1
            state1 0 [] with
        | Sum.inr vr => vr
        | Sum.inl out =>
            let final_hash := out.1.compute_hash
            let valid := decide (final_hash = result.final_state_hash)
            ⟨valid, final_hash, result.final_state_hash, out.2.2,
              if valid then none
              else some (.FinalStateMismatch result.final_state_hash final_hash)⟩

/-! ## Claim-side replay semantics for C1 -/

/-- The pure replay: state after `n` ticks from the reconstructed initial
state (phase forced to `Playing`), feeding each tick the recorded
most-recent-delta-at-or-before inputs. -/
def replayState (t : MatchTranscript) : Nat → MatchState
  | 0 => { reconstruct_initial_state t with phase := MatchPhase.Playing }
  | n + 1 =>
      (tickFn (replayState t n) (get_inputs_at_tick (build_input_lookup t) (n + 1))
        MatchConfig.default).1

/-- Claim-side formalization of C1's right-hand side, from the claim's
words: the replay reproduces the recorded initial-state hash, every
recorded checkpoint state hash (which therefore must lie within the
replayed range), and the recorded final-state hash. -/
def SpecReplayValid (t : MatchTranscript) (r : MatchResult) : Prop :=
  (reconstruct_initial_state t).compute_hash = t.initial_state.state_hash
  ∧ (∀ cp ∈ t.checkpoints, cp.tick ≤ r.end_tick
      ∧ (replayState t cp.tick).compute_hash = cp.state_hash)
  ∧ (replayState t r.end_tick).compute_hash = r.final_state_hash

/-- The in-order checkpoint scan over the pure replay: returns the first
checkpoint whose in-order comparison fails, or `none` when every compared
checkpoint matches.  Checkpoints whose tick never coincides with the live
tick counter are skipped without comparison, exactly as the fail-fast scan
of `verify_transcript` does. -/
def scanCk (t : MatchTranscript) : Nat → Nat → Nat → Option StateCheckpoint
  | 0, _, _ => none
  | rem + 1, n, idx =>
      match t.checkpoints.get? idx with
      | some cp =>
          if cp.tick = (replayState t n).tick then
            if (replayState t n).compute_hash = cp.state_hash then
              scanCk t rem (n + 1) (idx + 1)
            else some cp
          else scanCk t rem (n + 1) idx
      | none => scanCk t rem (n + 1) idx

/-! ## Concrete scenarios used by the claims -/

/-- Concrete player id [1; 16]. -/
def idA : PlayerId := ⟨List.replicate 16 1⟩

/-- Concrete player id [2; 16]. -/
def idB : PlayerId := ⟨List.replicate 16 2⟩

/-- The idle input frame (both axes at the no-input sentinel, no flags). -/
def idleInput : InputFrame := InputFrame.new

/-- C3 scenario: player about to evolve, standing on a rune. -/
def c3A : PlayerState := { PlayerState.new idA ⟨0, 0⟩ with score := 90 }

/-- C3 scenario: a second far-away player keeping the match alive. -/
def c3B : PlayerState := PlayerState.new idB ⟨655360, 655360⟩

/-- C3 scenario state: Playing, tick 1, one uncollected Wisdom rune under
player A. -/
def c3State : MatchState :=
  { MatchState.new (List.replicate 16 0) 777 with
      tick := 1, phase := .Playing, alive_count := 2,
      players := [(idA, c3A), (idB, c3B)],
      runes := [(0, RuneState.new 0 ⟨0, 0⟩ .Wisdom)] }

/-- C5 scenario: one player standing exactly on shrine 0. -/
def c5Player : PlayerState := PlayerState.new idA ⟨2293760, 2293760⟩

/-- C5 scenario state: shrines spawned, one alive channeling player. -/
def c5State : MatchState :=
  spawn_shrines { MatchState.new (List.replicate 16 0) 5 with
    tick := 10, phase := .Playing, alive_count := 1, players := [(idA, c5Player)] }

/-- Iterated `process_shrines` at the default configuration. -/
def iterShrines : Nat → MatchState → MatchState
  | 0, s => s
  | n + 1, s => iterShrines n (process_shrines s ShrineConfig.default)

/-- C5 scenario: channel for 299 ticks, step off the shrine, process once
more. -/
def c5Left : MatchState :=
  let s := iterShrines 299 c5State
  let moved := aupdate idA (fun (p : PlayerState) => { p with position := ⟨0, 0⟩ }) s.players
  process_shrines { s with players := moved } ShrineConfig.default

/-- C7 scenario: player A exactly on the full-size arena boundary. -/
def c7A : PlayerState := PlayerState.new idA ⟨3276800, 0⟩

/-- C7 scenario: player B at the centre. -/
def c7B : PlayerState := PlayerState.new idB ⟨0, 0⟩

/-- C7 scenario state: Playing at tick 5000, past the shrink start. -/
def c7State : MatchState :=
  { MatchState.new (List.replicate 16 0) 9 with
      tick := 5000, phase := .Playing, alive_count := 2,
      players := [(idA, c7A), (idB, c7B)] }

/-- C7 scenario inputs: the idle sentinel for both players. -/
def c7Inputs : List (PlayerId × InputFrame) := [(idA, idleInput), (idB, idleInput)]

/-- Iterated `tick` with fixed inputs. -/
def iterTick (inputs : List (PlayerId × InputFrame)) (cfg : MatchConfig) :
    Nat → MatchState → MatchState
  | 0, s => s
  | n + 1, s => iterTick inputs cfg n (tickFn s inputs cfg).1

/-- C8 scenario state: one uncollected rune and one eliminated player. -/
def c8State : MatchState :=
  { MatchState.new (List.replicate 16 0) 3 with
      tick := 7, phase := .Playing, alive_count := 0,
      players := [(idA, { PlayerState.new idA ⟨0, 0⟩ with alive := false })],
      runes := [(0, RuneState.new 0 ⟨0, 0⟩ .Wisdom)] }

/-- C1 counterexample metadata: no recorded participants, so the
reconstructed state is small. -/
def c1Metadata : MatchMetadata :=
  ⟨List.replicate 16 1, List.replicate 32 2, [], 12345, 0, List.replicate 32 4⟩

/-- C1 counterexample transcript before the hashes are filled in: no
players, no inputs, and a single checkpoint at tick 5 with a garbage
hash. -/
def c1Base : MatchTranscript :=
  ⟨1, c1Metadata, ⟨[], (100, 200), zeros32⟩, [], [⟨5, zeros32, (0, 0)⟩], none, []⟩

/-- The reconstructed initial-state hash of the C1 transcript (well
defined before the stored hash is filled in, since reconstruction never
reads that field). -/
def c1InitHash : List Nat := (reconstruct_initial_state c1Base).compute_hash

/-- C1 counterexample result: the match ends at tick 0, so the replay
range is empty and the checkpoint at tick 5 is never compared. -/
def c1Result : MatchResult := ⟨0, none, [], c1InitHash⟩

/-- The finalized C1 counterexample transcript: matching initial and
final hashes, plus the skipped garbage checkpoint. -/
def c1Transcript : MatchTranscript :=
  { c1Base with
      initial_state := { c1Base.initial_state with state_hash := c1InitHash },
      result := some c1Result }

/-! ## Claim-side observations for C7 -/

/-- The C7 observation on one player: position and pending dash impulse. -/
def pproj (p : PlayerState) : FixedVec2 × Option FixedVec2 :=
  (p.position, p.dash_velocity)

/-- The C7 observation on a match state: the tracked player's position
and dash impulse, `none` when the player is absent. -/
def posDash (pid : PlayerId) (s : MatchState) : Option (FixedVec2 × Option FixedVec2) :=
  (alookup pid s.players).map pproj

/-- The "no input" sentinel on both axes with no jump/ability flags. -/
@[reducible] def IdleNoFlags (f : InputFrame) : Prop :=
  f.move_x = -128 ∧ f.move_y = -128 ∧ f.jump_pressed = false ∧ f.ability_pressed = false

/-- The tracked player has no pending dash impulse (vacuously true when
absent). -/
def dashIsNone (s : MatchState) (pid : PlayerId) : Bool :=
  match alookup pid s.players with
  | none => true
  | some p => p.dash_velocity == none

/-- The tracked player's position lies within the current arena bounds
(vacuously true when absent). -/
def posInBoundsB (s : MatchState) (pid : PlayerId) : Bool :=
  match alookup pid s.players with
  | none => true
  | some p =>
      let b := s.current_arena_bounds
      decide (-b.1 ≤ p.position.x ∧ p.position.x ≤ b.1
        ∧ -b.2 ≤ p.position.y ∧ p.position.y ≤ b.2)

/-! ## Theorems -/

/-- A value already in i32 range is unchanged by wrapping. -/
theorem wrap32_eq_of_range (x : Int) (h1 : -(2 ^ 31) ≤ x) (h2 : x < 2 ^ 31) :
    wrap32 x = x := by
  unfold wrap32
  omega

theorem fixed_div_zero (a : Int) : fixed_div a 0 = 0 := by
  simp [fixed_div]

theorem fixed_sqrt_nonpos (x : Int) (h : x ≤ 0) : fixed_sqrt x = 0 := by
  simp [fixed_sqrt, h]

theorem foldl_range_eq_iterate (f : Int → Int) (n : Nat) (g : Int) :
    (List.range n).foldl (fun acc _ => f acc) g = f^[n] g := by
  induction n generalizing g with
  | zero => rfl
  | succ k ih =>
      rw [List.range_succ, List.foldl_append, List.foldl_cons, List.foldl_nil,
        Function.iterate_succ_apply', ih]

/-- C6: the numeric edge-case policy of the fixed-point core: division by
zero returns zero and never traps; the square root returns zero on
non-positive input and otherwise performs exactly six Newton-Raphson
iterations from the initial guess `max (x >> 1) 1` (clamped away from
zero); and normalizing the zero vector returns the zero vector without any
division by zero. -/
theorem c6_numeric_edge_cases :
    (∀ a : Int, fixed_div a 0 = 0)
    ∧ (∀ x : Int, x ≤ 0 → fixed_sqrt x = 0)
    ∧ (∀ x : Int, 0 < x → fixed_sqrt x = (sqrtStep x)^[6] (max (x >>> 1) 1))
    ∧ FixedVec2.normalize FixedVec2.ZERO = FixedVec2.ZERO := by
  refine ⟨fixed_div_zero, fixed_sqrt_nonpos, ?_, ?_⟩
  · intro x hx
    rw [fixed_sqrt, if_neg (show ¬ x ≤ 0 by omega)]
    exact foldl_range_eq_iterate (sqrtStep x) 6 _
  · decide

/-- Witness for C6 at concrete inputs. -/
theorem c6_numeric_edge_cases_witness :
    fixed_div 65536 0 = 0 ∧ fixed_sqrt (-65536) = 0
    ∧ fixed_sqrt 262144 = (sqrtStep 262144)^[6] (max ((262144 : Int) >>> 1) 1) := by
  have h := c6_numeric_edge_cases
  exact ⟨h.1 65536, h.2.1 (-65536) (by decide), h.2.2.1 262144 (by decide)⟩

/-- C10 counterexample: `2147483647` lies outside the claimed interval
`[-1073741824, 1073741822]`, yet the biased M31 round-trip still returns it
exactly, refuting the claim that the round-trip identity fails outside the
interval. -/
theorem c10_counterexample :
    (1073741822 : Int) < 2147483647
    ∧ decode_m31_to_fixed (encode_fixed_to_m31 2147483647) = 2147483647 := by
  constructor
  · decide
  · decide

/-- C10 amended: on the interval `[-1073741824, 1073741822]` the biased M31
encoding is strictly below the Mersenne-31 prime and round-trips exactly;
outside the interval the encoding is no longer below the prime (the debug
assertion in the source rejects it), but the round-trip identity still
holds for every i32 value because the bias and the wrapping casts cancel
modulo 2^32. -/
theorem c10_m31_roundtrip (x : Int) (h1 : -(2 ^ 31) ≤ x) (h2 : x < 2 ^ 31) :
    ((-1073741824 ≤ x ∧ x ≤ 1073741822) → encode_fixed_to_m31 x < M31_PRIME)
    ∧ ((x < -1073741824 ∨ 1073741822 < x) → M31_PRIME ≤ encode_fixed_to_m31 x)
    ∧ decode_m31_to_fixed (encode_fixed_to_m31 x) = x := by
  refine ⟨?_, ?_, ?_⟩ <;>
    · simp only [encode_fixed_to_m31, decode_m31_to_fixed, wrap32, M31_PRIME, M31_BIAS]
      omega

/-- Witness for C10 at a concrete in-interval and out-of-interval pair. -/
theorem c10_m31_roundtrip_witness :
    (((-1073741824 : Int) ≤ 65536 ∧ (65536 : Int) ≤ 1073741822) →
      encode_fixed_to_m31 65536 < M31_PRIME)
    ∧ ((((65536 : Int) < -1073741824) ∨ (1073741822 : Int) < 65536) →
      M31_PRIME ≤ encode_fixed_to_m31 65536)
    ∧ decode_m31_to_fixed (encode_fixed_to_m31 65536) = 65536 :=
  c10_m31_roundtrip 65536 (by decide) (by decide)

/-- C2 counterexample: `derive_match_seed` hashes the participant ids in
the order given (it does not sort internally), so permuting two distinct
ids changes the seed at this concrete instance. -/
theorem c2_counterexample :
    derive_match_seed (List.replicate 32 0) (List.replicate 16 0)
      [List.replicate 16 1, List.replicate 16 2]
    ≠ derive_match_seed (List.replicate 32 0) (List.replicate 16 0)
      [List.replicate 16 2, List.replicate 16 1] := by
  decide

/-- C2 amended: seed derivation is order-sensitive, not
permutation-invariant: sorting is the caller's responsibility, and the two
orderings of the same id set give different seeds at a concrete instance;
changing the block hash, the match id, or the id set likewise each change
the seed at concrete instances, and equal inputs always give equal seeds. -/
theorem c2_seed_sensitivity :
    (∀ bh mid ids, derive_match_seed bh mid ids = derive_match_seed bh mid ids)
    ∧ derive_match_seed (List.replicate 32 0) (List.replicate 16 0)
        [List.replicate 16 1, List.replicate 16 2]
      ≠ derive_match_seed (List.replicate 32 0) (List.replicate 16 0)
        [List.replicate 16 2, List.replicate 16 1]
    ∧ derive_match_seed (List.replicate 32 7) (List.replicate 16 0)
        [List.replicate 16 1, List.replicate 16 2]
      ≠ derive_match_seed (List.replicate 32 0) (List.replicate 16 0)
        [List.replicate 16 1, List.replicate 16 2]
    ∧ derive_match_seed (List.replicate 32 0) (List.replicate 16 9)
        [List.replicate 16 1, List.replicate 16 2]
      ≠ derive_match_seed (List.replicate 32 0) (List.replicate 16 0)
        [List.replicate 16 1, List.replicate 16 2]
    ∧ derive_match_seed (List.replicate 32 0) (List.replicate 16 0)
        [List.replicate 16 1, List.replicate 16 3]
      ≠ derive_match_seed (List.replicate 32 0) (List.replicate 16 0)
        [List.replicate 16 1, List.replicate 16 2] := by
  refine ⟨fun bh mid ids => rfl, ?_, ?_, ?_, ?_⟩ <;> decide


theorem byteListLt_asymm (xs ys : List Nat) (h : byteListLt xs ys = true) :
    byteListLt ys xs = false := by
  induction xs generalizing ys with
  | nil =>
      cases ys with
      | nil => simp [byteListLt]
      | cons b bs => simp [byteListLt]
  | cons a as ih =>
      cases ys with
      | nil => simp [byteListLt] at h
      | cons b bs =>
          simp only [byteListLt] at h ⊢
          split_ifs at h ⊢ <;> first | rfl | omega | exact ih bs h

theorem byteListLt_conn (xs ys : List Nat) (h : xs ≠ ys) :
    byteListLt xs ys = true ∨ byteListLt ys xs = true := by
  induction xs generalizing ys with
  | nil =>
      cases ys with
      | nil => exact absurd rfl h
      | cons b bs => left; simp [byteListLt]
  | cons a as ih =>
      cases ys with
      | nil => right; simp [byteListLt]
      | cons b bs =>
          simp only [byteListLt]
          by_cases hab : a < b
          · left; simp [hab]
          · by_cases hba : b < a
            · right; simp [hba, hab]
            · have hx : a = b := by omega
              subst hx
              have htail : as ≠ bs := by
                intro hcontra
                exact h (by rw [hcontra])
              rcases ih bs htail with h1 | h1
              · left; simpa [hab] using h1
              · right; simpa [hab] using h1

theorem wrap32_neg_sq (t : Int) :
    fixed_mul (wrap32 (-t)) (wrap32 (-t)) = fixed_mul (wrap32 t) (wrap32 t) := by
  have h : wrap32 (-t) = - wrap32 t ∨ wrap32 (-t) = wrap32 t := by
    unfold wrap32
    omega
  rcases h with h | h
  · rw [h]
    unfold fixed_mul
    rw [neg_mul_neg]
  · rw [h]

theorem distance_squared_comm (a b : FixedVec2) :
    FixedVec2.distance_squared b a = FixedVec2.distance_squared a b := by
  unfold FixedVec2.distance_squared
  have hx : b.x - a.x = -(a.x - b.x) := by ring
  have hy : b.y - a.y = -(a.y - b.y) := by ring
  simp only [hx, hy, wrap32_neg_sq]

theorem circles_overlap_comm (p1 : FixedVec2) (r1 : Int) (p2 : FixedVec2) (r2 : Int) :
    circles_overlap p2 r2 p1 r1 = circles_overlap p1 r1 p2 r2 := by
  unfold circles_overlap
  rw [distance_squared_comm, Int.add_comm r2 r1]

/-- C4: a player-vs-player overlap between two distinct, alive,
non-invulnerable players resolves deterministically and independently of
the argument order: a strictly higher form always wins regardless of ids,
and at equal forms with no shield buff on either side the lexicographically
smaller id always wins. -/
theorem c4_collision_deterministic (a b : PlayerState)
    (hne : a.id ≠ b.id) (ha : a.alive = true) (hb : b.alive = true)
    (hia : a.invulnerable_ticks = 0) (hib : b.invulnerable_ticks = 0)
    (hov : circles_overlap a.position a.radius b.position b.radius = true) :
    (b.form.idx < a.form.idx →
      check_player_collision a b = some ⟨a.id, b.id⟩
      ∧ check_player_collision b a = some ⟨a.id, b.id⟩)
    ∧ (a.form = b.form →
      a.shield_buff_ticks = 0 → a.has_shrine_buff .Shield = false →
      b.shield_buff_ticks = 0 → b.has_shrine_buff .Shield = false →
      check_player_collision a b
        = some ⟨if a.id.lt b.id then a.id else b.id,
                if a.id.lt b.id then b.id else a.id⟩
      ∧ check_player_collision b a
        = some ⟨if a.id.lt b.id then a.id else b.id,
                if a.id.lt b.id then b.id else a.id⟩) := by
  have hov2 : circles_overlap b.position b.radius a.position a.radius = true := by
    rw [circles_overlap_comm]
    exact hov
  constructor
  · intro hform
    unfold check_player_collision
    simp [ha, hb, hia, hib, hov, hov2, hform, Nat.lt_asymm hform]
  · intro hform hs1 hs2 hs3 hs4
    have hformi : a.form.idx = b.form.idx := by rw [hform]
    have hidne : a.id.bytes ≠ b.id.bytes := by
      intro hcontra
      exact hne (congrArg PlayerId.mk hcontra)
    unfold check_player_collision
    by_cases hlt : a.id.lt b.id
    · have hlt2 : b.id.lt a.id = false := byteListLt_asymm _ _ hlt
      simp [ha, hb, hia, hib, hov, hov2, hformi, hs1, hs2, hs3, hs4, hlt, hlt2,
        PlayerId.lt] at *
      simp [hlt, PlayerId.lt, byteListLt_asymm _ _ hlt]
    · have hlt2 : b.id.lt a.id = true := by
        rcases byteListLt_conn a.id.bytes b.id.bytes hidne with h1 | h1
        · exact absurd h1 hlt
        · exact h1
      simp [ha, hb, hia, hib, hov, hov2, hformi, hs1, hs2, hs3, hs4, hlt, hlt2,
        PlayerId.lt] at *
      simp [hlt, hlt2, PlayerId.lt]

/-- Witness for C4: two fresh equal-form players at the same position; the
smaller id wins in both argument orders. -/
theorem c4_collision_deterministic_witness :
    check_player_collision paC4 pbC4 = some ⟨paC4.id, pbC4.id⟩
    ∧ check_player_collision pbC4 paC4 = some ⟨paC4.id, pbC4.id⟩ := by
  have h := (c4_collision_deterministic paC4 pbC4 (by decide) (by decide) (by decide)
    (by decide) (by decide) (by decide)).2 (by decide) (by decide) (by decide)
    (by decide) (by decide)
  have hlt : paC4.id.lt pbC4.id = true := by decide
  rw [hlt] at h
  simpa using h


theorem nextPow2go_pow (n fuel power : Nat) (h : power.isPowerOfTwo) :
    (nextPow2go n fuel power).isPowerOfTwo := by
  induction fuel generalizing power with
  | zero => exact h
  | succ f ih =>
      unfold nextPow2go
      split
      · exact ih _ (Nat.mul2_isPowerOfTwo_of_isPowerOfTwo h)
      · exact h

theorem nextPow2go_ge (n fuel power : Nat) (h : n ≤ power * 2 ^ fuel) :
    n ≤ nextPow2go n fuel power := by
  induction fuel generalizing power with
  | zero => simpa using h
  | succ f ih =>
      unfold nextPow2go
      split
      · refine ih _ ?_
        have hp : power * 2 ^ (f + 1) = power * 2 * 2 ^ f := by ring
        omega
      · omega

theorem nextPow2_isPowerOfTwo (n : Nat) : (nextPow2 n).isPowerOfTwo :=
  nextPow2go_pow n n 1 Nat.one_isPowerOfTwo

theorem le_nextPow2 (n : Nat) : n ≤ nextPow2 n := by
  refine nextPow2go_ge n n 1 ?_
  have h := Nat.lt_two_pow n
  omega

theorem combineLevel_length (L : List (List Nat)) :
    (combineLevel L).length = (L.length + 1) / 2 := by
  induction L using combineLevel.induct with
  | case1 => simp [combineLevel]
  | case2 a => simp [combineLevel]
  | case3 a b rest ih => simp [combineLevel, ih]; omega

theorem getD_cons_one {α : Type} (x : α) (l : List α) (n : Nat) (e : α) :
    (x :: l).getD (n + 1) e = l.getD n e := rfl

theorem getD_cons_two {α : Type} (x y : α) (l : List α) (n : Nat) (e : α) :
    (x :: y :: l).getD (n + 2) e = l.getD n e := rfl

theorem combineLevel_getD (L : List (List Nat)) (j : Nat) (e : List Nat)
    (h : 2 * j + 1 < L.length) :
    (combineLevel L).getD j e = hash_nodes (L.getD (2 * j) e) (L.getD (2 * j + 1) e) := by
  induction L using combineLevel.induct generalizing j with
  | case1 => simp at h
  | case2 a =>
      simp only [List.length_singleton] at h
      omega
  | case3 a b rest ih =>
      cases j with
      | zero => simp [combineLevel]
      | succ j2 =>
          have h2 : 2 * j2 + 1 < rest.length := by
            simp only [List.length_cons] at h
            omega
          have e1 : 2 * (j2 + 1) = 2 * j2 + 2 := by ring
          have e2 : 2 * (j2 + 1) + 1 = (2 * j2 + 1) + 2 := by ring
          rw [e2, e1, getD_cons_two, getD_cons_two]
          show (combineLevel rest).getD j2 e = _
          exact ih j2 h2

theorem buildLevels_ne_nil (fuel : Nat) (cur : List (List Nat)) :
    buildLevels fuel cur ≠ [] := by
  cases fuel with
  | zero => simp [buildLevels]
  | succ f =>
      unfold buildLevels
      split <;> simp

theorem buildLevels_fold (k : Nat) :
    ∀ (fuel : Nat) (cur : List (List Nat)) (idx : Nat),
      cur.length = 2 ^ k → k ≤ fuel → idx < cur.length →
      verifyFold (cur.getD idx empty_hash) (proofSiblings (buildLevels fuel cur) idx)
        = ((buildLevels fuel cur).getLastD []).getD 0 empty_hash := by
  induction k with
  | zero =>
      intro fuel cur idx hlen hfuel hidx
      have hone : cur.length = 1 := by simpa using hlen
      have hidx0 : idx = 0 := by omega
      subst hidx0
      have hbl : buildLevels fuel cur = [cur] := by
        cases fuel with
        | zero => rfl
        | succ f => unfold buildLevels; rw [if_pos (by omega)]
      rw [hbl]
      simp [proofSiblings, verifyFold]
  | succ k ih =>
      intro fuel cur idx hlen hfuel hidx
      have hpow : (2 : Nat) ^ (k + 1) = 2 * 2 ^ k := by ring
      have hklen : 1 ≤ 2 ^ k := Nat.one_le_two_pow
      have hlen2 : 2 ≤ cur.length := by omega
      obtain ⟨f, rfl⟩ : ∃ f, fuel = f + 1 := ⟨fuel - 1, by omega⟩
      have hbl : buildLevels (f + 1) cur = cur :: buildLevels f (combineLevel cur) := by
        simp only [buildLevels]
        rw [if_neg (by omega)]
      have hnextlen : (combineLevel cur).length = 2 ^ k := by
        rw [combineLevel_length, hlen, hpow]
        omega
      obtain ⟨l0, ls, hcons⟩ : ∃ l0 ls, buildLevels f (combineLevel cur) = l0 :: ls := by
        rcases hbl2 : buildLevels f (combineLevel cur) with _ | ⟨l0, ls⟩
        · exact absurd hbl2 (buildLevels_ne_nil f _)
        · exact ⟨l0, ls, rfl⟩
      have hcurlen_even : cur.length % 2 = 0 := by omega
      have hsib : (if idx % 2 = 0 then idx + 1 else idx - 1) < cur.length := by
        by_cases h2 : idx % 2 = 0
        · rw [if_pos h2]; omega
        · rw [if_neg h2]; omega
      rw [hbl, hcons]
      simp only [proofSiblings]
      rw [if_pos hsib]
      simp only [List.singleton_append]
      have hlast : ((cur :: l0 :: ls).getLastD []).getD 0 empty_hash
          = ((l0 :: ls).getLastD []).getD 0 empty_hash := by
        rcases ls with _ | ⟨l1, ls2⟩
        · simp [List.getLastD]
        · simp [List.getLastD]
      rw [hlast]
      have hidxlt : idx / 2 < (combineLevel cur).length := by omega
      have hihx := ih f (combineLevel cur) (idx / 2) hnextlen (by omega) hidxlt
      rw [hcons] at hihx
      by_cases h2 : idx % 2 = 0
      · have hdec : decide (idx % 2 = 0) = true := decide_eq_true h2
        have hif : (if idx % 2 = 0 then idx + 1 else idx - 1) = idx + 1 := if_pos h2
        rw [hif, hdec]
        show verifyFold
            (if (true : Bool) then hash_nodes (cur.getD idx empty_hash) (cur.getD (idx + 1) empty_hash)
              else hash_nodes (cur.getD (idx + 1) empty_hash) (cur.getD idx empty_hash))
            (proofSiblings (l0 :: ls) (idx / 2)) = _
        rw [if_pos rfl]
        have hcg := combineLevel_getD cur (idx / 2) empty_hash (by omega)
        have h21 : 2 * (idx / 2) = idx := by omega
        rw [h21] at hcg
        rw [← hcg]
        exact hihx
      · have hdec : decide (idx % 2 = 0) = false := decide_eq_false h2
        have hif : (if idx % 2 = 0 then idx + 1 else idx - 1) = idx - 1 := if_neg h2
        rw [hif, hdec]
        show verifyFold
            (if (false : Bool) then hash_nodes (cur.getD idx empty_hash) (cur.getD (idx - 1) empty_hash)
              else hash_nodes (cur.getD (idx - 1) empty_hash) (cur.getD idx empty_hash))
            (proofSiblings (l0 :: ls) (idx / 2)) = _
        rw [if_neg (by simp)]
        have hcg := combineLevel_getD cur (idx / 2) empty_hash (by omega)
        have h22 : 2 * (idx / 2) + 1 = idx := by omega
        have h21 : 2 * (idx / 2) = idx - 1 := by omega
        rw [h22, h21] at hcg
        rw [← hcg]
        exact hihx

theorem verifyFold_collision (s : List (List Nat × Bool)) :
    ∀ h1 h2 : List Nat, h1 ≠ h2 → verifyFold h1 s = verifyFold h2 s →
      ∃ x y x2 y2, hash_nodes x y = hash_nodes x2 y2 ∧ (x ≠ x2 ∨ y ≠ y2) := by
  induction s with
  | nil =>
      intro h1 h2 hne heq
      exact absurd heq hne
  | cons p rest ih =>
      intro h1 h2 hne heq
      obtain ⟨sib, isr⟩ := p
      by_cases hstep :
          (if isr then hash_nodes h1 sib else hash_nodes sib h1)
          = (if isr then hash_nodes h2 sib else hash_nodes sib h2)
      · cases isr with
        | true =>
            refine ⟨h1, sib, h2, sib, ?_, Or.inl hne⟩
            simpa using hstep
        | false =>
            refine ⟨sib, h1, sib, h2, ?_, Or.inr hne⟩
            simpa using hstep
      · exact ih _ _ hstep heq


theorem getD_map_leaf (data : List (List Nat)) (i : Nat) (hi : i < data.length) :
    (data.map hash_leaf).getD i empty_hash = hash_leaf (data.getD i []) := by
  induction data generalizing i with
  | nil => simp at hi
  | cons a rest ih =>
      cases i with
      | zero => rfl
      | succ i2 =>
          show (rest.map hash_leaf).getD i2 empty_hash = hash_leaf (rest.getD i2 [])
          exact ih i2 (by simpa using hi)

theorem getD_append_left {α : Type} (l1 l2 : List α) (i : Nat) (d : α)
    (hi : i < l1.length) : (l1 ++ l2).getD i d = l1.getD i d := by
  induction l1 generalizing i with
  | nil => simp at hi
  | cons a rest ih =>
      cases i with
      | zero => rfl
      | succ i2 =>
          show (rest ++ l2).getD i2 d = rest.getD i2 d
          exact ih i2 (by simpa using hi)

/-- C9: for a tree built from `N ≥ 1` leaves, every leaf index below `N`
yields a generated inclusion proof that verifies against the tree root
with the original leaf content; and any modified content whose
domain-separated leaf hash differs can only verify against the original
root by exhibiting an explicit SHA-256 collision in the node-combining
hash — absent such a collision, verification of modified content fails. -/
theorem c9_merkle_proofs (data : List (List Nat)) (i : Nat) (hi : i < data.length) :
    ∃ proof, generate_proof (data.map hash_leaf) i = some proof
    ∧ verify_proof (MerkleRootOfLeaves (data.map hash_leaf)) proof (data.getD i []) = true
    ∧ ∀ c : List Nat, hash_leaf c ≠ hash_leaf (data.getD i []) →
        verify_proof (MerkleRootOfLeaves (data.map hash_leaf)) proof c = true →
        ∃ x y x2 y2, hash_nodes x y = hash_nodes x2 y2 ∧ (x ≠ x2 ∨ y ≠ y2) := by
  have hlen : (data.map hash_leaf).length = data.length := by simp
  have hne : data.map hash_leaf ≠ [] := by
    intro hcontra
    rw [List.map_eq_nil_iff] at hcontra
    subst hcontra
    simp at hi
  have hgen : generate_proof (data.map hash_leaf) i
      = some ⟨i, proofSiblings (MerkleLevels (data.map hash_leaf)) i⟩ := by
    unfold generate_proof
    rw [if_neg (by omega)]
  have hlev : MerkleLevels (data.map hash_leaf)
      = buildLevels (padToPow2 (data.map hash_leaf)).length (padToPow2 (data.map hash_leaf)) := by
    unfold MerkleLevels
    rw [if_neg hne]
  have hroot : MerkleRootOfLeaves (data.map hash_leaf)
      = ((MerkleLevels (data.map hash_leaf)).getLastD []).getD 0 empty_hash := by
    unfold MerkleRootOfLeaves
    rw [if_neg hne]
  obtain ⟨k, hk⟩ := nextPow2_isPowerOfTwo (data.map hash_leaf).length
  have hle := le_nextPow2 (data.map hash_leaf).length
  have hplen : (padToPow2 (data.map hash_leaf)).length = 2 ^ k := by
    unfold padToPow2
    simp only [List.length_append, List.length_replicate]
    omega
  have hkle : k ≤ 2 ^ k := Nat.le_of_lt (Nat.lt_two_pow k)
  have hidx : i < (padToPow2 (data.map hash_leaf)).length := by
    rw [hplen, ← hk]
    omega
  have hfold := buildLevels_fold k (padToPow2 (data.map hash_leaf)).length
    (padToPow2 (data.map hash_leaf)) i hplen (by omega) hidx
  have hgetD : (padToPow2 (data.map hash_leaf)).getD i empty_hash
      = hash_leaf (data.getD i []) := by
    unfold padToPow2
    rw [getD_append_left _ _ i empty_hash (by omega)]
    exact getD_map_leaf data i hi
  rw [hplen] at hfold
  rw [hgetD] at hfold
  have hfold2 : verifyFold (hash_leaf (data.getD i []))
      (proofSiblings (MerkleLevels (data.map hash_leaf)) i)
      = MerkleRootOfLeaves (data.map hash_leaf) := by
    rw [hroot, hlev, hplen]
    exact hfold
  refine ⟨⟨i, proofSiblings (MerkleLevels (data.map hash_leaf)) i⟩, hgen, ?_, ?_⟩
  · unfold verify_proof
    simp only [hfold2]
    exact beq_self_eq_true _
  · intro c hc hv
    unfold verify_proof at hv
    have hv2 : verifyFold (hash_leaf c)
        (proofSiblings (MerkleLevels (data.map hash_leaf)) i)
        = MerkleRootOfLeaves (data.map hash_leaf) := eq_of_beq hv
    exact verifyFold_collision _ (hash_leaf c) (hash_leaf (data.getD i [])) hc
      (hv2.trans hfold2.symm)

/-- Witness for C9 on a concrete two-leaf tree at index zero. -/
theorem c9_merkle_proofs_witness :
    ∃ proof, generate_proof ([[0], [1]].map hash_leaf) 0 = some proof
    ∧ verify_proof (MerkleRootOfLeaves ([[0], [1]].map hash_leaf)) proof
        ([[0], [1]].getD 0 []) = true
    ∧ ∀ c : List Nat, hash_leaf c ≠ hash_leaf ([[0], [1]].getD 0 []) →
        verify_proof (MerkleRootOfLeaves ([[0], [1]].map hash_leaf)) proof c = true →
        ∃ x y x2 y2, hash_nodes x y = hash_nodes x2 y2 ∧ (x ≠ x2 ∨ y ≠ y2) :=
  c9_merkle_proofs [[0], [1]] 0 (by decide)


/-- C3 counterexample: a tick in which a rune collection triggers an
evolution returns the FormEvolution event (priority 2) before the
RuneCollection event (priority 1) of the same tick, so the returned event
list is not nondecreasing under the (tick, category-priority, player-id)
order. -/
theorem c3_counterexample :
    eventsSorted (tickFn c3State [] MatchConfig.default).2.events = false := by
  decide

/-- C3 amended: `tick` returns the events of one tick in generation order
and does not sort them; the total (tick, category-priority, player-id)
order exists on events, and the permutation of the returned list ordered
by it is sorted, but the returned list itself is not: in the concrete
evolving-collection tick the FormEvolution event precedes its triggering
RuneCollection event. -/
theorem c3_events_generation_order :
    (tickFn c3State [] MatchConfig.default).2.events
      = [GameEvent.form_evolved 2 idA .Spark .Glyph,
         GameEvent.rune_collected 2 idA 0 .Wisdom 10 100]
    ∧ eventsSorted (tickFn c3State [] MatchConfig.default).2.events = false
    ∧ eventsSorted [GameEvent.rune_collected 2 idA 0 .Wisdom 10 100,
         GameEvent.form_evolved 2 idA .Spark .Glyph] = true := by
  refine ⟨by decide, by decide, by decide⟩

/-- C5 at the failing input: a player channeling shrine 0 continuously for
exactly `CHANNEL_TICKS = 300` processed ticks at the default channel rate
218 has received no buff and the shrine is still active with progress
218 * 300 = 65400 < 65536; the buff and the cooldown arrive only on the
301st consecutive tick; interruption at tick 299 grants nothing and resets
the progress to zero. -/
theorem c5_channel_off_by_one :
    ((alookup idA (iterShrines 300 c5State).players).map
      (fun p => p.shrine_buffs)) = some []
    ∧ ((iterShrines 300 c5State).shrines.head?.map
      (fun sh => (sh.active, sh.channel_progress, sh.cooldown)))
        = some (true, 65400, 0)
    ∧ ((alookup idA (iterShrines 301 c5State).players).map
      (fun p => (p.shrine_buffs, p.shrine_buff_ticks)))
        = some ([ShrineType.Wisdom], [1800])
    ∧ ((iterShrines 301 c5State).shrines.head?.map
      (fun sh => (sh.active, sh.channel_progress, sh.cooldown)))
        = some (false, 0, 3932160)
    ∧ ((alookup idA c5Left.players).map (fun p => p.shrine_buffs)) = some []
    ∧ (c5Left.shrines.head?.map
      (fun sh => (sh.active, sh.channel_progress, sh.channeling_player)))
        = some (true, 0, none) := by
  refine ⟨by decide, by decide, by decide, by decide, by decide, by decide⟩

/-- C7 counterexample: a player on the (full-size) arena boundary at tick
5000 — alive, in the Playing phase, inside the current bounds, with no
dash impulse, fed the idle sentinel on both axes for 10 consecutive ticks
with no ability use by anyone — ends the 10 ticks displaced, because the
arena shrink moves the bound past the position and the physics clamp drags
the player inward. -/
theorem c7_counterexample :
    c7A.alive = true ∧ c7State.phase = MatchPhase.Playing
    ∧ c7State.is_in_bounds c7A.position = true
    ∧ c7A.dash_velocity = none
    ∧ c7State.active_abilities = []
    ∧ (∀ q ∈ c7Inputs, q.2 = InputFrame.new)
    ∧ ((alookup idA (iterTick c7Inputs MatchConfig.default 10 c7State).players).map
        (fun p => p.position)) = some ⟨3272750, 0⟩
    ∧ (⟨3272750, 0⟩ : FixedVec2) ≠ c7A.position := by
  refine ⟨by decide, by decide, by decide, by decide, by decide, by decide, by decide,
    by decide⟩

/-- C8 counterexample: with an uncollected rune and an eliminated player,
`collect_rune` returns `none` but does not leave the state unchanged — the
rune has been marked collected. -/
theorem c8_counterexample :
    (collect_rune c8State idA 0).1 = none
    ∧ ((alookup 0 c8State.runes).map (fun r => r.collected)) = some false
    ∧ ((alookup 0 (collect_rune c8State idA 0).2.runes).map
        (fun r => r.collected)) = some true := by
  refine ⟨by decide, by decide, by decide⟩

/-- C8 amended: expected absence is an explicit no-effect result in the
return value — `collect_rune` returns `none` when the rune is missing or
already collected (state fully unchanged) and when the player is missing
or eliminated; but in the latter case the rune record has already been
marked collected (with the tick and collector recorded) before the player
check, so only that rune record changes and no player field or score is
touched. -/
theorem c8_collect_rune_no_effect (s : MatchState) (player_id : PlayerId) (rune_id : Nat) :
    (alookup rune_id s.runes = none → collect_rune s player_id rune_id = (none, s))
    ∧ (∀ r, alookup rune_id s.runes = some r → r.collected = true →
        collect_rune s player_id rune_id = (none, s))
    ∧ (∀ r, alookup rune_id s.runes = some r → r.collected = false →
        (alookup player_id s.players = none
          ∨ ∃ p, alookup player_id s.players = some p ∧ p.alive = false) →
        (collect_rune s player_id rune_id).1 = none
        ∧ (collect_rune s player_id rune_id).2
            = { s with runes := aupdate rune_id (fun r2 =>
                { r2 with collected := true, collected_tick := some s.tick,
                          collected_by := some player_id }) s.runes }) := by
  refine ⟨?_, ?_, ?_⟩
  · intro h
    unfold collect_rune
    rw [h]
  · intro r hr hc
    unfold collect_rune
    rw [hr]
    simp [hc]
  · intro r hr hc hplayer
    obtain ⟨mid, tk, ph, seed, rng, players, runes, shr, nri, ac, np, pe, ashr, aab, mp⟩ := s
    unfold collect_rune
    rw [hr]
    simp only [hc, Bool.false_eq_true, if_neg not_false]
    rcases hplayer with hnone | ⟨p, hp, hal⟩
    · rw [hnone]
      exact ⟨rfl, rfl⟩
    · rw [hp]
      simp only [hal, if_pos rfl]
      exact ⟨rfl, rfl⟩

/-- Witness for C8 amended at the concrete scenario state. -/
theorem c8_collect_rune_no_effect_witness :
    (collect_rune c8State idA 0).1 = none
    ∧ (collect_rune c8State idA 0).2
        = { c8State with runes := aupdate 0 (fun r2 =>
            { r2 with collected := true, collected_tick := some c8State.tick,
                      collected_by := some idA }) c8State.runes } :=
  (c8_collect_rune_no_effect c8State idA 0).2.2 (RuneState.new 0 ⟨0, 0⟩ .Wisdom)
    (by decide) (by decide)
    (Or.inr ⟨{ PlayerState.new idA ⟨0, 0⟩ with alive := false }, by decide, by decide⟩)

/-- C1 counterexample: a finalized transcript that `verify_transcript`
accepts although the replay does not reproduce every recorded checkpoint
hash — the recorded checkpoint at tick 5 lies beyond `end_tick = 0`, so
the fail-fast scan never compares it and its garbage hash goes
unnoticed. -/
theorem c1_counterexample :
    c1Transcript.result = some c1Result
    ∧ (verify_transcript c1Transcript).valid = true
    ∧ ¬ SpecReplayValid c1Transcript c1Result := by
  refine ⟨rfl, by decide, fun h => ?_⟩
  have h5 := (h.2.1 ⟨5, zeros32, (0, 0)⟩ (by decide)).1
  exact absurd h5 (by decide)

/-- Characterization of the replay loop of `verify_transcript` against
the pure replay: started at tick `n + 1` in the pure replay state after
`n` ticks, the loop succeeds exactly when the in-order fail-fast scan
finds no failing checkpoint, and on the first failing checkpoint it
returns that checkpoint's `CheckpointMismatch`. -/
theorem verifyLoop_scanCk (t : MatchTranscript) :
    ∀ (rem n idx : Nat) (results : List CheckpointResult),
      (scanCk t rem (n + 1) idx = none →
        ∃ out, verifyLoop (build_input_lookup t) t.checkpoints MatchConfig.default
            rem (n + 1) (replayState t n) idx results = Sum.inl out
          ∧ out.1 = replayState t (n + rem))
      ∧ (∀ cp, scanCk t rem (n + 1) idx = some cp →
          ∃ computed results2,
            verifyLoop (build_input_lookup t) t.checkpoints MatchConfig.default
              rem (n + 1) (replayState t n) idx results
            = Sum.inr ⟨false, computed, cp.state_hash, results2,
                some (.CheckpointMismatch cp.tick cp.state_hash computed)⟩) := by
  intro rem
  induction rem with
  | zero =>
      intro n idx results
      refine ⟨fun _ => ⟨(replayState t n, idx, results), rfl, ?_⟩, fun cp h => ?_⟩
      · rw [Nat.add_zero]
      · simp [scanCk] at h
  | succ rem ih =>
      intro n idx results
      have hrepl : (tickFn (replayState t n)
          (get_inputs_at_tick (build_input_lookup t) (n + 1)) MatchConfig.default).1
          = replayState t (n + 1) := rfl
      rcases hget : t.checkpoints.get? idx with _ | cp₀
      · constructor
        · intro hscan
          simp only [scanCk, hget] at hscan
          obtain ⟨out, heq, hout⟩ := (ih (n + 1) idx results).1 hscan
          refine ⟨out, ?_, hout.trans (congrArg (replayState t) (by omega))⟩
          simp only [verifyLoop, hget, hrepl]
          exact heq
        · intro cp hscan
          simp only [scanCk, hget] at hscan
          obtain ⟨computed, results2, heq⟩ := (ih (n + 1) idx results).2 cp hscan
          refine ⟨computed, results2, ?_⟩
          simp only [verifyLoop, hget, hrepl]
          exact heq
      · by_cases ht : cp₀.tick = (replayState t (n + 1)).tick
        · by_cases hh : (replayState t (n + 1)).compute_hash = cp₀.state_hash
          · have hv : decide ((replayState t (n + 1)).compute_hash = cp₀.state_hash)
                = true := decide_eq_true hh
            constructor
            · intro hscan
              simp only [scanCk, hget] at hscan
              rw [if_pos ht, if_pos hh] at hscan
              obtain ⟨out, heq, hout⟩ := (ih (n + 1) (idx + 1)
                (results ++ [⟨cp₀.tick, cp₀.state_hash,
                  (replayState t (n + 1)).compute_hash, true⟩])).1 hscan
              refine ⟨out, ?_, hout.trans (congrArg (replayState t) (by omega))⟩
              simp only [verifyLoop, hget, hrepl]
              rw [if_pos ht, if_pos hv, hv]
              exact heq
            · intro cp hscan
              simp only [scanCk, hget] at hscan
              rw [if_pos ht, if_pos hh] at hscan
              obtain ⟨computed, results2, heq⟩ := (ih (n + 1) (idx + 1)
                (results ++ [⟨cp₀.tick, cp₀.state_hash,
                  (replayState t (n + 1)).compute_hash, true⟩])).2 cp hscan
              refine ⟨computed, results2, ?_⟩
              simp only [verifyLoop, hget, hrepl]
              rw [if_pos ht, if_pos hv, hv]
              exact heq
          · have hv3 : ¬ (decide ((replayState t (n + 1)).compute_hash
                = cp₀.state_hash) = true) := by simpa using hh
            have hv : decide ((replayState t (n + 1)).compute_hash = cp₀.state_hash)
                = false := decide_eq_false hh
            constructor
            · intro hscan
              simp only [scanCk, hget] at hscan
              rw [if_pos ht, if_neg hh] at hscan
              exact absurd hscan (by simp)
            · intro cp hscan
              simp only [scanCk, hget] at hscan
              rw [if_pos ht, if_neg hh] at hscan
              obtain rfl : cp₀ = cp := by injection hscan
              refine ⟨(replayState t (n + 1)).compute_hash,
                results ++ [⟨cp₀.tick, cp₀.state_hash,
                  (replayState t (n + 1)).compute_hash, false⟩], ?_⟩
              simp only [verifyLoop, hget, hrepl]
              rw [if_pos ht, if_neg hv3, hv]
        · constructor
          · intro hscan
            simp only [scanCk, hget] at hscan
            rw [if_neg ht] at hscan
            obtain ⟨out, heq, hout⟩ := (ih (n + 1) idx results).1 hscan
            refine ⟨out, ?_, hout.trans (congrArg (replayState t) (by omega))⟩
            simp only [verifyLoop, hget, hrepl]
            rw [if_neg ht]
            exact heq
          · intro cp hscan
            simp only [scanCk, hget] at hscan
            rw [if_neg ht] at hscan
            obtain ⟨computed, results2, heq⟩ := (ih (n + 1) idx results).2 cp hscan
            refine ⟨computed, results2, ?_⟩
            simp only [verifyLoop, hget, hrepl]
            rw [if_neg ht]
            exact heq

/-- C1 amended: for every finalized transcript, `verify_transcript`
returns `valid = true` iff the reconstructed initial hash matches the
stored one, the in-order fail-fast checkpoint scan over the pure replay
finds no mismatch, and the replayed final hash matches the recorded one;
and whenever that scan finds a first failing checkpoint, the returned
error is a `CheckpointMismatch` carrying exactly that checkpoint's tick.
The claim's clause "every recorded checkpoint state hash" is strictly
stronger than the scan clause: checkpoints the fail-fast scan skips
(tick beyond `end_tick`, or never equal to the live tick counter) are not
compared, as `c1_counterexample` exhibits. -/
theorem c1_verify_iff_scan (t : MatchTranscript) (r : MatchResult)
    (hres : t.result = some r) :
    ((verify_transcript t).valid = true ↔
      ((reconstruct_initial_state t).compute_hash = t.initial_state.state_hash
        ∧ scanCk t r.end_tick 1 0 = none
        ∧ (replayState t r.end_tick).compute_hash = r.final_state_hash))
    ∧ (∀ cp, (reconstruct_initial_state t).compute_hash = t.initial_state.state_hash →
        scanCk t r.end_tick 1 0 = some cp →
        ∃ computed, (verify_transcript t).error
          = some (.CheckpointMismatch cp.tick cp.state_hash computed)) := by
  have hchar := verifyLoop_scanCk t r.end_tick 0 0 []
  have h01 : (0 : Nat) + 1 = 1 := rfl
  rw [h01] at hchar
  have hstate : (replayState t 0)
      = { reconstruct_initial_state t with phase := MatchPhase.Playing } := rfl
  by_cases hinit : (reconstruct_initial_state t).compute_hash = t.initial_state.state_hash
  · rcases hscan : scanCk t r.end_tick 1 0 with _ | cp₀
    · obtain ⟨out, heq, hout⟩ := hchar.1 hscan
      simp only [verify_transcript, hres]
      rw [if_neg (not_not_intro hinit), ← hstate]
      simp only [heq]
      rw [hout, Nat.zero_add]
      constructor
      · constructor
        · intro h
          exact ⟨hinit, trivial, of_decide_eq_true h⟩
        · rintro ⟨-, -, h3⟩
          exact decide_eq_true h3
      · intro cp _ hsc
        exact absurd hsc (by simp)
    · obtain ⟨computed, results2, heq⟩ := hchar.2 cp₀ hscan
      simp only [verify_transcript, hres]
      rw [if_neg (not_not_intro hinit), ← hstate]
      simp only [heq]
      constructor
      · constructor
        · intro h
          exact absurd h (by simp)
        · rintro ⟨-, hnone, -⟩
          exact absurd hnone (by simp)
      · intro cp _ hsc
        obtain rfl : cp₀ = cp := by injection hsc
        exact ⟨computed, rfl⟩
  · simp only [verify_transcript, hres]
    rw [if_pos hinit]
    constructor
    · constructor
      · intro h
        exact absurd h (by simp)
      · rintro ⟨h1, -⟩
        exact absurd h1 hinit
    · intro cp h1 _
      exact absurd h1 hinit

/-- Witness for C1 amended at the concrete counterexample transcript. -/
theorem c1_verify_iff_scan_witness :
    c1Transcript.result = some c1Result
    ∧ (((verify_transcript c1Transcript).valid = true ↔
        ((reconstruct_initial_state c1Transcript).compute_hash
            = c1Transcript.initial_state.state_hash
          ∧ scanCk c1Transcript c1Result.end_tick 1 0 = none
          ∧ (replayState c1Transcript c1Result.end_tick).compute_hash
              = c1Result.final_state_hash))
      ∧ (∀ cp, (reconstruct_initial_state c1Transcript).compute_hash
            = c1Transcript.initial_state.state_hash →
          scanCk c1Transcript c1Result.end_tick 1 0 = some cp →
          ∃ computed, (verify_transcript c1Transcript).error
            = some (.CheckpointMismatch cp.tick cp.state_hash computed))) :=
  ⟨rfl, c1_verify_iff_scan c1Transcript c1Result rfl⟩

/-- Updating a key in place, observed at that same key. -/
theorem alookup_aupdate_self {α β : Type} [DecidableEq α] (k : α) (f : β → β) :
    ∀ l : List (α × β), alookup k (aupdate k f l) = (alookup k l).map f := by
  intro l
  induction l with
  | nil => rfl
  | cons hd tl ih =>
      obtain ⟨k2, v⟩ := hd
      simp only [aupdate]
      by_cases h2 : k2 = k
      · rw [if_pos h2]
        simp only [alookup]
        rw [if_pos h2, if_pos h2]
        rfl
      · rw [if_neg h2]
        simp only [alookup]
        rw [if_neg h2, if_neg h2]
        exact ih

/-- Updating a key in place, observed at a different key. -/
theorem alookup_aupdate_ne {α β : Type} [DecidableEq α] (k pid : α) (hne : pid ≠ k)
    (f : β → β) : ∀ l : List (α × β), alookup pid (aupdate k f l) = alookup pid l := by
  intro l
  induction l with
  | nil => rfl
  | cons hd tl ih =>
      obtain ⟨k2, v⟩ := hd
      simp only [aupdate]
      by_cases h2 : k2 = k
      · rw [if_pos h2]
        simp only [alookup]
        have h3 : ¬ k2 = pid := fun hh => hne (hh ▸ h2)
        rw [if_neg h3, if_neg h3]
      · rw [if_neg h2]
        simp only [alookup]
        by_cases h3 : k2 = pid
        · rw [if_pos h3, if_pos h3]
        · rw [if_neg h3, if_neg h3]
          exact ih

/-- Updating any key in place, observed through a projection the update
preserves. -/
theorem alookup_aupdate_proj {γ : Type} (g : PlayerState → γ) (k : PlayerId)
    (f : PlayerState → PlayerState) (h : ∀ v, g (f v) = g v) (pid : PlayerId)
    (l : List (PlayerId × PlayerState)) :
    (alookup pid (aupdate k f l)).map g = (alookup pid l).map g := by
  by_cases hk : pid = k
  · subst hk
    rw [alookup_aupdate_self]
    rcases alookup pid l with _ | v
    · rfl
    · simp [h]
  · rw [alookup_aupdate_ne k pid hk]

/-- Lookup through a value-only map of the association list. -/
theorem alookup_map_snd (f : PlayerState → PlayerState) (pid : PlayerId) :
    ∀ l : List (PlayerId × PlayerState),
      alookup pid (l.map fun pp => (pp.1, f pp.2)) = (alookup pid l).map f := by
  intro l
  induction l with
  | nil => rfl
  | cons hd tl ih =>
      obtain ⟨k2, v⟩ := hd
      simp only [List.map_cons, alookup]
      by_cases h3 : k2 = pid
      · rw [if_pos h3, if_pos h3]
        rfl
      · rw [if_neg h3, if_neg h3]
        exact ih

/-- Lookup through a key-preserving entry map, observed through a
projection the map preserves. -/
theorem alookup_map_proj {γ : Type} (g : PlayerState → γ)
    (T : PlayerId × PlayerState → PlayerId × PlayerState)
    (h1 : ∀ pp, (T pp).1 = pp.1) (h2 : ∀ pp, g (T pp).2 = g pp.2) (pid : PlayerId) :
    ∀ l : List (PlayerId × PlayerState),
      (alookup pid (l.map T)).map g = (alookup pid l).map g := by
  intro l
  induction l with
  | nil => rfl
  | cons hd tl ih =>
      obtain ⟨kh, vh⟩ := hd
      have e1 : (T (kh, vh)).1 = kh := h1 _
      have e2 : g (T (kh, vh)).2 = g vh := h2 _
      rcases hT : T (kh, vh) with ⟨k2, v⟩
      rw [hT] at e1 e2
      subst e1
      simp only [List.map_cons, hT, alookup]
      by_cases h3 : k2 = pid
      · rw [if_pos h3, if_pos h3]
        simpa using e2
      · rw [if_neg h3, if_neg h3]
        exact ih

/-- A fold over state transformers that preserve the observation
preserves it. -/
theorem posDash_foldl {α : Type} (pid : PlayerId) (g : MatchState → α → MatchState)
    (h : ∀ s2 a, posDash pid (g s2 a) = posDash pid s2) :
    ∀ (l : List α) (s : MatchState), posDash pid (l.foldl g s) = posDash pid s := by
  intro l
  induction l with
  | nil => intro s; rfl
  | cons hd tl ih => intro s; exact (ih (g s hd)).trans (h s hd)

/-- `try_evolve` only changes the form. -/
theorem pproj_try_evolve (p : PlayerState) : pproj p.try_evolve.1 = pproj p := by
  unfold PlayerState.try_evolve
  rcases p.form.next with _ | nf
  · rfl
  · dsimp only
    split
    · rfl
    · rfl

/-- `add_score` only changes score and form. -/
theorem pproj_add_score (p : PlayerState) (n : Nat) : pproj (p.add_score n).1 = pproj p :=
  pproj_try_evolve _

/-- `add_shrine_buff` only changes the shrine-buff lists. -/
theorem pproj_add_shrine_buff (p : PlayerState) (bt : ShrineType) (d : Nat) :
    pproj (p.add_shrine_buff bt d) = pproj p := by
  unfold PlayerState.add_shrine_buff
  rcases p.shrine_buffs.findIdx? (fun st => st == bt) with _ | i
  · rfl
  · rfl

/-- `zoneDamageStep` only changes health. -/
theorem pproj_zoneDamageStep (hw hh : Int) (cfg : MatchConfig) (p : PlayerState) :
    pproj (zoneDamageStep hw hh cfg p) = pproj p := by
  simp only [zoneDamageStep]
  split
  · rfl
  · rfl

/-- `push_event` does not touch the players. -/
theorem posDash_push_event (pid : PlayerId) (s : MatchState) (e : GameEvent) :
    posDash pid (s.push_event e) = posDash pid s := rfl

/-- `eliminate_player` never moves a player or grants a dash. -/
theorem posDash_eliminate (pid : PlayerId) (s : MatchState) (v : PlayerId)
    (k : Option PlayerId) : posDash pid (s.eliminate_player v k) = posDash pid s := by
  rcases k with _ | kid
  · simp only [MatchState.eliminate_player]
    split
    · rfl
    · refine alookup_aupdate_proj pproj v _ ?_ pid s.players
      intro w
      rfl
  · simp only [MatchState.eliminate_player]
    split
    · rfl
    · refine Eq.trans (alookup_aupdate_proj pproj kid _ ?_ pid _)
        (alookup_aupdate_proj pproj v _ ?_ pid s.players)
      · intro w
        exact pproj_add_score _ _
      · intro w
        rfl

/-- Player collision processing never moves a player or grants a dash. -/
theorem posDash_process_player_collisions (pid : PlayerId) (s : MatchState) :
    posDash pid (process_player_collisions s) = posDash pid s := by
  simp only [process_player_collisions]
  refine posDash_foldl pid _ ?_ _ s
  intro s2 c
  exact posDash_eliminate pid s2 c.loser (some c.winner)

/-- `apply_chaos_effect` never moves a player or grants a dash. -/
theorem posDash_chaos (pid : PlayerId) (s : MatchState) (pid2 : PlayerId) :
    posDash pid (apply_chaos_effect s pid2) = posDash pid s := by
  simp only [apply_chaos_effect]
  refine alookup_aupdate_proj pproj pid2 _ ?_ pid _
  intro w
  split
  · rfl
  · split
    · rfl
    · split
      · rfl
      · exact pproj_add_score w 50

/-- Lookup after a constant in-place update whose new value matches the
old one under the projection. -/
theorem posDash_aupdate_const (pid pid2 : PlayerId) (w : PlayerState)
    (l : List (PlayerId × PlayerState))
    (h : ∀ p, alookup pid2 l = some p → pproj w = pproj p) :
    (alookup pid (aupdate pid2 (fun _ => w) l)).map pproj
      = (alookup pid l).map pproj := by
  by_cases hpp : pid = pid2
  · subst hpp
    rw [alookup_aupdate_self]
    rcases hl : alookup pid l with _ | p
    · rfl
    · simp only [Option.map_some']
      rw [h p hl]
  · rw [alookup_aupdate_ne _ _ hpp]

/-- `collect_rune` never moves a player or grants a dash. -/
theorem posDash_collect_rune (pid : PlayerId) (s : MatchState) (pid2 : PlayerId)
    (rid : Nat) : posDash pid (collect_rune s pid2 rid).2 = posDash pid s := by
  obtain ⟨mid, tk, ph, seed, rng, players, runes, shr, nri, ac, np, pe, ashr, aab, mp⟩ := s
  rcases hr : alookup rid runes with _ | rune
  · simp only [collect_rune, hr]
  · simp only [collect_rune, hr]
    split
    · rfl
    · rcases hp : alookup pid2 players with _ | player
      · simp only [hp]
        rfl
      · simp only [hp]
        split
        · rfl
        · dsimp only
          have hkey : ∀ (pts : Nat) (p : PlayerState), alookup pid2 players = some p →
              pproj (({ (match rune.rune_type with
                | RuneType.Speed => { player with speed_buff_ticks := RUNE_BUFF_DURATION }
                | RuneType.Shield => { player with shield_buff_ticks := RUNE_BUFF_DURATION }
                | _ => player) with
                  runes_collected := (match rune.rune_type with
                    | RuneType.Speed => { player with speed_buff_ticks := RUNE_BUFF_DURATION }
                    | RuneType.Shield =>
                        { player with shield_buff_ticks := RUNE_BUFF_DURATION }
                    | _ => player).runes_collected + 1 }).add_score pts).1 = pproj p := by
            intro pts p hp2
            rw [hp] at hp2
            obtain rfl : player = p := by injection hp2
            refine Eq.trans (pproj_add_score _ _) ?_
            rcases rune.rune_type <;> rfl
          split <;> split <;> split <;>
            first
              | exact posDash_aupdate_const pid pid2 _ players (hkey _)
              | exact Eq.trans (posDash_push_event pid _ _)
                  (posDash_aupdate_const pid pid2 _ players (hkey _))
              | exact Eq.trans (posDash_chaos pid _ pid2)
                  (posDash_aupdate_const pid pid2 _ players (hkey _))

/-- Rune collision processing never moves a player or grants a dash. -/
theorem posDash_process_rune_collisions (pid : PlayerId) (s : MatchState) :
    posDash pid (process_rune_collisions s) = posDash pid s := by
  simp only [process_rune_collisions]
  refine posDash_foldl pid _ (fun s2 c => ?_) _ s
  rcases hre : (collect_rune s2 c.player_id c.rune_id).1 with _ | e
  · simp only [hre]
    exact posDash_collect_rune pid s2 c.player_id c.rune_id
  · simp only [hre]
    exact posDash_collect_rune pid s2 c.player_id c.rune_id

/-- Zone damage processing never moves a player or grants a dash. -/
theorem posDash_process_zone_damage (pid : PlayerId) (s : MatchState) (cfg : MatchConfig) :
    posDash pid (process_zone_damage s cfg) = posDash pid s := by
  simp only [process_zone_damage]
  refine Eq.trans (posDash_foldl pid _ ?_ _ _) ?_
  · intro s3 pid2
    exact posDash_eliminate pid s3 pid2 none
  refine alookup_map_proj pproj _ ?_ ?_ pid s.players
  · intro pp
    split
    · rfl
    · rfl
  · intro pp
    split
    · rfl
    · exact pproj_zoneDamageStep _ _ _ _

/-- One spawned rune never touches the players. -/
theorem posDash_spawnOneRune (pid : PlayerId) (cfg : RuneSpawnConfig) (emit : Bool)
    (ws : Nat) (s : MatchState) : posDash pid (spawnOneRune cfg emit ws s) = posDash pid s := by
  simp only [spawnOneRune]
  split
  · rfl
  · rfl

/-- The counted rune-spawning loop never touches the players. -/
theorem posDash_spawnRunesLoop (pid : PlayerId) (cfg : RuneSpawnConfig) (emit : Bool)
    (ws : Nat) : ∀ (n : Nat) (s : MatchState),
      posDash pid (spawnRunesLoop cfg emit ws n s) = posDash pid s := by
  intro n
  induction n with
  | zero => intro s; rfl
  | succ n ih =>
      intro s
      exact (ih _).trans (posDash_spawnOneRune pid cfg emit ws s)

/-- `spawn_runes` never touches the players. -/
theorem posDash_spawn_runes (pid : PlayerId) (s : MatchState) (cfg : RuneSpawnConfig)
    (count : Nat) (emit : Bool) (wso : Option Nat) :
    posDash pid (spawn_runes s cfg count emit wso) = posDash pid s := by
  simp only [spawn_runes]
  split
  · rfl
  · exact posDash_spawnRunesLoop pid cfg emit _ _ s

/-- `maybe_spawn_runes` never touches the players. -/
theorem posDash_maybe_spawn_runes (pid : PlayerId) (s : MatchState)
    (cfg : RuneSpawnConfig) : posDash pid (maybe_spawn_runes s cfg) = posDash pid s := by
  simp only [maybe_spawn_runes]
  split
  · rfl
  · split <;> split <;>
      first
        | rfl
        | exact posDash_spawn_runes pid _ cfg _ _ _
        | exact Eq.trans (posDash_spawn_runes pid _ cfg _ _ _)
            (posDash_spawn_runes pid _ cfg _ _ _)

/-- Applying one deferred shrine action never moves a player or grants a
dash. -/
theorem posDash_applyShrineAction (pid : PlayerId) (cfg : ShrineConfig) (s : MatchState)
    (a : ShrineAction) : posDash pid (applyShrineAction cfg s a) = posDash pid s := by
  rcases a with ⟨sid, pl⟩ | ⟨sid, pr⟩ | ⟨sid, pl, st⟩ | ⟨sid, pl⟩ | ⟨sid, o, np⟩
  · rfl
  · rfl
  · simp only [applyShrineAction]
    refine alookup_aupdate_proj pproj pl _ ?_ pid _
    intro w
    exact pproj_add_shrine_buff w st cfg.buff_duration
  · rfl
  · rfl

/-- Shrine processing never moves a player or grants a dash. -/
theorem posDash_process_shrines (pid : PlayerId) (s : MatchState) (cfg : ShrineConfig) :
    posDash pid (process_shrines s cfg) = posDash pid s := by
  simp only [process_shrines]
  refine Eq.trans (posDash_foldl pid MatchState.push_event (fun s2 e => rfl) _ _) ?_
  exact posDash_foldl pid (applyShrineAction cfg)
    (fun s2 a => posDash_applyShrineAction pid cfg s2 a) _ _

/-- Active-ability processing never moves a player or grants a dash. -/
theorem posDash_process_active_abilities (pid : PlayerId) (s : MatchState) :
    posDash pid (process_active_abilities s) = posDash pid s := by
  simp only [process_active_abilities]
  refine posDash_foldl pid _ (fun s2 well => ?_) _ s
  refine alookup_map_proj pproj _ ?_ ?_ pid s2.players
  · intro pp
    split
    · rfl
    · split
      · rfl
      · rfl
  · intro pp
    split
    · rfl
    · split
      · rfl
      · rfl

/-- `end_match` never moves a player or grants a dash. -/
theorem posDash_end_match (pid : PlayerId) (s : MatchState) (res : TickResult) :
    posDash pid (end_match s res).1 = posDash pid s := by
  simp only [end_match]
  split
  · refine alookup_aupdate_proj pproj _ _ ?_ pid _
    intro w
    rfl
  · rfl

/-- `check_end_conditions` never moves a player or grants a dash. -/
theorem posDash_check_end (pid : PlayerId) (s : MatchState) (res : TickResult) :
    posDash pid (check_end_conditions s res).1 = posDash pid s := by
  simp only [check_end_conditions]
  split
  · exact posDash_end_match pid s res
  · split
    · exact posDash_end_match pid s res
    · rfl

/-- `update_arena_shrink` never touches the players. -/
theorem posDash_update_arena_shrink (pid : PlayerId) (s : MatchState) (cfg : MatchConfig) :
    posDash pid (update_arena_shrink s cfg) = posDash pid s := by
  simp only [update_arena_shrink]
  split
  · rfl
  · rfl

/-- Every wrapped value is in i32 range. -/
theorem wrap32_range (z : Int) : -2147483648 ≤ wrap32 z ∧ wrap32 z < 2147483648 := by
  unfold wrap32
  constructor <;> omega

/-- Every fixed-point product is in i32 range. -/
theorem fixed_mul_range (a b : Int) :
    -2147483648 ≤ fixed_mul a b ∧ fixed_mul a b < 2147483648 := by
  unfold fixed_mul wrap32
  constructor <;> omega

/-- Applying the idle frame only zeroes the velocity. -/
theorem applyInputToPlayer_idle (tick : Nat) (f : InputFrame) (p : PlayerState)
    (hf : IdleNoFlags f) :
    applyInputToPlayer tick f p = { p with velocity := FixedVec2.ZERO } := by
  obtain ⟨hx, hy, hj, -⟩ := hf
  have hm : f.move_direction = FixedVec2.ZERO := by
    simp only [InputFrame.move_direction, hx, hy]
    decide
  simp only [applyInputToPlayer, hm]
  rw [show FixedVec2.ZERO.length_squared = 0 from by decide]
  rw [if_neg (by decide : ¬ ((0 : Int) > FIXED_ONE)), if_neg (by decide : ¬ ((0 : Int) > 0))]
  split
  · rename_i hc
    rw [hj] at hc
    exact Bool.noConfusion hc.1
  · rfl

/-- The players after one processed movement step. -/
theorem applyInputStep_players (acc : MatchState × List PlayerId) (k : PlayerId)
    (fr : InputFrame) (player : PlayerState)
    (hl : alookup k acc.1.players = some player) (hal : ¬ player.alive = false) :
    (applyInputStep acc (k, fr)).1.players
      = aupdate k (fun _ => applyInputToPlayer acc.1.tick fr player) acc.1.players := by
  simp only [applyInputStep, hl]
  rw [if_neg hal]

/-- One movement step never touches tick or arena shrink. -/
theorem applyInputStep_meta (acc : MatchState × List PlayerId)
    (q : PlayerId × InputFrame) :
    (applyInputStep acc q).1.tick = acc.1.tick
    ∧ (applyInputStep acc q).1.arena_shrink = acc.1.arena_shrink := by
  rcases hl : alookup q.1 acc.1.players with _ | player
  · simp only [applyInputStep, hl]
    exact ⟨trivial, trivial⟩
  · simp only [applyInputStep, hl]
    by_cases hal : player.alive = false
    · rw [if_pos hal]
      exact ⟨rfl, rfl⟩
    · rw [if_neg hal]
      exact ⟨rfl, rfl⟩

/-- A step whose frame does not press the ability queues nothing. -/
theorem applyInputStep_acts (acc : MatchState × List PlayerId) (k : PlayerId)
    (fr : InputFrame) (hab : fr.ability_pressed = false) :
    (applyInputStep acc (k, fr)).2 = acc.2 := by
  rcases hl : alookup k acc.1.players with _ | player
  · simp only [applyInputStep, hl]
  · simp only [applyInputStep, hl]
    by_cases hal : player.alive = false
    · rw [if_pos hal]
    · rw [if_neg hal, if_neg (by simp [hab])]

/-- One movement step under C7's input hypotheses: nothing queues, tick
and arena shrink are untouched, and the tracked player's entry is either
unchanged or velocity-zeroed. -/
theorem applyInputStep_inv (pid : PlayerId) (s0 : MatchState) (k : PlayerId)
    (fr : InputFrame) (hq1 : k = pid → IdleNoFlags fr)
    (hq2 : k ≠ pid → fr.ability_pressed = false)
    (acc : MatchState × List PlayerId) (h2 : acc.2 = []) (ht : acc.1.tick = s0.tick)
    (ha : acc.1.arena_shrink = s0.arena_shrink)
    (he : alookup pid acc.1.players = alookup pid s0.players
      ∨ ∃ p, alookup pid s0.players = some p ∧ p.alive = true
          ∧ alookup pid acc.1.players = some { p with velocity := FixedVec2.ZERO }) :
    (applyInputStep acc (k, fr)).2 = []
    ∧ (applyInputStep acc (k, fr)).1.tick = s0.tick
    ∧ (applyInputStep acc (k, fr)).1.arena_shrink = s0.arena_shrink
    ∧ (alookup pid (applyInputStep acc (k, fr)).1.players = alookup pid s0.players
      ∨ ∃ p, alookup pid s0.players = some p ∧ p.alive = true
          ∧ alookup pid (applyInputStep acc (k, fr)).1.players
            = some { p with velocity := FixedVec2.ZERO }) := by
  have hab : fr.ability_pressed = false := by
    by_cases hqp : k = pid
    · exact (hq1 hqp).2.2.2
    · exact hq2 hqp
  refine ⟨(applyInputStep_acts acc k fr hab).trans h2,
    (applyInputStep_meta acc (k, fr)).1.trans ht,
    (applyInputStep_meta acc (k, fr)).2.trans ha, ?_⟩
  rcases hl : alookup k acc.1.players with _ | player
  · simp only [applyInputStep, hl]
    exact he
  · by_cases hal : player.alive = false
    · simp only [applyInputStep, hl]
      rw [if_pos hal]
      exact he
    · rw [applyInputStep_players acc k fr player hl hal]
      by_cases hqp : k = pid
      · subst hqp
        rw [alookup_aupdate_self, hl, Option.map_some',
          applyInputToPlayer_idle _ _ _ (hq1 rfl)]
        rcases he with hsame | ⟨p, hp, halp, hq⟩
        · rw [hsame] at hl
          right
          refine ⟨player, hl, ?_, rfl⟩
          cases hpa : player.alive
          · exact absurd hpa hal
          · rfl
        · rw [hq] at hl
          have hpl : player = { p with velocity := FixedVec2.ZERO } := by
            injection hl with hh
            exact hh.symm
          subst hpl
          exact Or.inr ⟨p, hp, halp, rfl⟩
      · rw [alookup_aupdate_ne k pid (fun h => hqp h.symm)]
        exact he

/-- The movement fold of `apply_inputs` under C7's input hypotheses. -/
theorem applyInputsFold_inv (pid : PlayerId) (s0 : MatchState) :
    ∀ (l : List (PlayerId × InputFrame)),
      (∀ q ∈ l, q.1 = pid → IdleNoFlags q.2) →
      (∀ q ∈ l, q.1 ≠ pid → q.2.ability_pressed = false) →
      ∀ acc : MatchState × List PlayerId,
        acc.2 = [] → acc.1.tick = s0.tick → acc.1.arena_shrink = s0.arena_shrink →
        (alookup pid acc.1.players = alookup pid s0.players
          ∨ ∃ p, alookup pid s0.players = some p ∧ p.alive = true
              ∧ alookup pid acc.1.players = some { p with velocity := FixedVec2.ZERO }) →
        (l.foldl applyInputStep acc).2 = []
        ∧ (l.foldl applyInputStep acc).1.tick = s0.tick
        ∧ (l.foldl applyInputStep acc).1.arena_shrink = s0.arena_shrink
        ∧ (alookup pid (l.foldl applyInputStep acc).1.players = alookup pid s0.players
          ∨ ∃ p, alookup pid s0.players = some p ∧ p.alive = true
              ∧ alookup pid (l.foldl applyInputStep acc).1.players
                = some { p with velocity := FixedVec2.ZERO }) := by
  intro l
  induction l with
  | nil =>
      intro _ _ acc h2 ht ha he
      exact ⟨h2, ht, ha, he⟩
  | cons hd tl ih =>
      intro hidle hnoab acc h2 ht ha he
      obtain ⟨k, fr⟩ := hd
      obtain ⟨g2, gt, ga, ge⟩ := applyInputStep_inv pid s0 k fr
        (fun hh => hidle (k, fr) (List.mem_cons_self _ _) hh)
        (fun hh => hnoab (k, fr) (List.mem_cons_self _ _) hh) acc h2 ht ha he
      exact ih (fun q hq => hidle q (List.mem_cons_of_mem _ hq))
        (fun q hq => hnoab q (List.mem_cons_of_mem _ hq))
        (applyInputStep acc (k, fr)) g2 gt ga ge

/-- A step at the tracked player with the idle frame puts (or keeps) the
entry in velocity-zeroed form. -/
theorem applyInputStep_self_zero (pid : PlayerId) (s0 : MatchState) (f0 : InputFrame)
    (hf : IdleNoFlags f0) (acc : MatchState × List PlayerId)
    (he : alookup pid acc.1.players = alookup pid s0.players
      ∨ ∃ p, alookup pid s0.players = some p ∧ p.alive = true
          ∧ alookup pid acc.1.players = some { p with velocity := FixedVec2.ZERO }) :
    ∀ p, alookup pid s0.players = some p → p.alive = true →
      alookup pid (applyInputStep acc (pid, f0)).1.players
        = some { p with velocity := FixedVec2.ZERO } := by
  intro p hp halp
  have hcur : alookup pid acc.1.players = some p
      ∨ alookup pid acc.1.players = some { p with velocity := FixedVec2.ZERO } := by
    rcases he with hsame | ⟨p', hp', hal', hq⟩
    · exact Or.inl (hsame.trans hp)
    · have hpp : p' = p := by
        rw [hp'] at hp
        injection hp
      subst hpp
      exact Or.inr hq
  rcases hcur with hc | hc
  · rw [applyInputStep_players acc pid f0 p hc (by simp [halp]),
      alookup_aupdate_self, hc, Option.map_some', applyInputToPlayer_idle _ _ _ hf]
  · rw [applyInputStep_players acc pid f0 _ hc (by simp [halp]),
      alookup_aupdate_self, hc, Option.map_some', applyInputToPlayer_idle _ _ _ hf]

/-- A zeroed tracked entry stays zeroed through further movement steps. -/
theorem applyInputStep_zero (pid : PlayerId) (s0 : MatchState) (k : PlayerId)
    (fr : InputFrame) (hq1 : k = pid → IdleNoFlags fr)
    (acc : MatchState × List PlayerId)
    (hz : ∀ p, alookup pid s0.players = some p → p.alive = true →
      alookup pid acc.1.players = some { p with velocity := FixedVec2.ZERO }) :
    ∀ p, alookup pid s0.players = some p → p.alive = true →
      alookup pid (applyInputStep acc (k, fr)).1.players
        = some { p with velocity := FixedVec2.ZERO } := by
  intro p hp halp
  have hcur := hz p hp halp
  rcases hl : alookup k acc.1.players with _ | player
  · simp only [applyInputStep, hl]
    exact hcur
  · by_cases hal : player.alive = false
    · simp only [applyInputStep, hl]
      rw [if_pos hal]
      exact hcur
    · rw [applyInputStep_players acc k fr player hl hal]
      by_cases hqp : k = pid
      · subst hqp
        rw [hcur] at hl
        have hpl : player = { p with velocity := FixedVec2.ZERO } := by
          injection hl with hh
          exact hh.symm
        subst hpl
        rw [alookup_aupdate_self, hcur, Option.map_some',
          applyInputToPlayer_idle _ _ _ (hq1 rfl)]
      · rw [alookup_aupdate_ne k pid (fun h => hqp h.symm)]
        exact hcur

/-- The zeroed tracked entry survives a whole movement fold. -/
theorem applyInputsFold_zero (pid : PlayerId) (s0 : MatchState) :
    ∀ (l : List (PlayerId × InputFrame)),
      (∀ q ∈ l, q.1 = pid → IdleNoFlags q.2) →
      ∀ acc : MatchState × List PlayerId,
        (∀ p, alookup pid s0.players = some p → p.alive = true →
          alookup pid acc.1.players = some { p with velocity := FixedVec2.ZERO }) →
        ∀ p, alookup pid s0.players = some p → p.alive = true →
          alookup pid (l.foldl applyInputStep acc).1.players
            = some { p with velocity := FixedVec2.ZERO } := by
  intro l
  induction l with
  | nil =>
      intro _ acc hz
      exact hz
  | cons hd tl ih =>
      intro hidle acc hz
      obtain ⟨k, fr⟩ := hd
      exact ih (fun q hq => hidle q (List.mem_cons_of_mem _ hq))
        (applyInputStep acc (k, fr))
        (applyInputStep_zero pid s0 k fr
          (fun hh => hidle (k, fr) (List.mem_cons_self _ _) hh) acc hz)

/-- Full characterization of `apply_inputs` under C7's input hypotheses:
tick and arena shrink are untouched, no ability fires, and the tracked
player's entry is untouched (absent or dead) or exactly velocity-zeroed
(alive). -/
theorem apply_inputs_spec (pid : PlayerId) (s0 : MatchState)
    (inputs : List (PlayerId × InputFrame))
    (hidle : ∀ q ∈ inputs, q.1 = pid → IdleNoFlags q.2)
    (hnoab : ∀ q ∈ inputs, q.1 ≠ pid → q.2.ability_pressed = false)
    (hmem : ∃ f, (pid, f) ∈ inputs) :
    (apply_inputs s0 inputs).tick = s0.tick
    ∧ (apply_inputs s0 inputs).arena_shrink = s0.arena_shrink
    ∧ (alookup pid (apply_inputs s0 inputs).players = alookup pid s0.players
      ∨ ∃ p, alookup pid s0.players = some p ∧ p.alive = true
          ∧ alookup pid (apply_inputs s0 inputs).players
            = some { p with velocity := FixedVec2.ZERO })
    ∧ (∀ p, alookup pid s0.players = some p → p.alive = true →
        alookup pid (apply_inputs s0 inputs).players
          = some { p with velocity := FixedVec2.ZERO }) := by
  obtain ⟨f0, hf0⟩ := hmem
  obtain ⟨l1, l2, rfl⟩ := List.append_of_mem hf0
  obtain ⟨a2, at1, aa, ae⟩ := applyInputsFold_inv pid s0 l1
    (fun q hq => hidle q (List.mem_append.mpr (Or.inl hq)))
    (fun q hq => hnoab q (List.mem_append.mpr (Or.inl hq)))
    (s0, []) rfl rfl rfl (Or.inl rfl)
  have hidle0 : IdleNoFlags f0 :=
    hidle (pid, f0) (List.mem_append.mpr (Or.inr (List.mem_cons_self _ _))) rfl
  obtain ⟨b2, bt, ba, be⟩ := applyInputStep_inv pid s0 pid f0 (fun _ => hidle0)
    (fun hne => absurd rfl hne) (l1.foldl applyInputStep (s0, [])) a2 at1 aa ae
  have bz := applyInputStep_self_zero pid s0 f0 hidle0
    (l1.foldl applyInputStep (s0, [])) ae
  obtain ⟨c2, ct, ca, ce⟩ := applyInputsFold_inv pid s0 l2
    (fun q hq => hidle q (List.mem_append.mpr (Or.inr (List.mem_cons_of_mem _ hq))))
    (fun q hq => hnoab q (List.mem_append.mpr (Or.inr (List.mem_cons_of_mem _ hq))))
    (applyInputStep (l1.foldl applyInputStep (s0, [])) (pid, f0)) b2 bt ba be
  have cz := applyInputsFold_zero pid s0 l2
    (fun q hq => hidle q (List.mem_append.mpr (Or.inr (List.mem_cons_of_mem _ hq))))
    (applyInputStep (l1.foldl applyInputStep (s0, [])) (pid, f0)) bz
  have hfold : (l1 ++ (pid, f0) :: l2).foldl applyInputStep (s0, [])
      = l2.foldl applyInputStep
          (applyInputStep (l1.foldl applyInputStep (s0, [])) (pid, f0)) := by
    rw [List.foldl_append, List.foldl_cons]
  have happ : apply_inputs s0 (l1 ++ (pid, f0) :: l2)
      = (l2.foldl applyInputStep
          (applyInputStep (l1.foldl applyInputStep (s0, [])) (pid, f0))).1 := by
    simp only [apply_inputs]
    rw [hfold, c2, List.foldl_nil]
  rw [happ]
  exact ⟨ct, ca, ce, cz⟩

/-- Physics on an alive velocity-zeroed player with no dash impulse and a
position within the (range-bounded) clamp box does not move it. -/
theorem physicsStep_pproj_idle (hw hh : Int) (q : PlayerState)
    (hwr : -2147483648 ≤ hw) (hwr2 : hw < 2147483648)
    (hhr : -2147483648 ≤ hh) (hhr2 : hh < 2147483648)
    (hv : q.velocity = FixedVec2.ZERO) (hd : q.dash_velocity = none)
    (hx1 : -hw ≤ q.position.x) (hx2 : q.position.x ≤ hw)
    (hy1 : -hh ≤ q.position.y) (hy2 : q.position.y ≤ hh) :
    pproj (physicsStep hw hh q) = pproj q := by
  by_cases hal : q.alive = false
  · simp only [physicsStep]
    rw [if_pos hal]
  · have hm : ∀ c : Int, fixed_mul 0 c = 0 := by
      intro c
      unfold fixed_mul
      rw [zero_mul]
      decide
    simp only [physicsStep, hv, hd, FixedVec2.ZERO, hm, ite_self]
    rw [if_neg hal]
    simp only [hm, ite_self, add_zero]
    rw [wrap32_eq_of_range q.position.x (by norm_num; omega) (by norm_num; omega),
      wrap32_eq_of_range q.position.y (by norm_num; omega) (by norm_num; omega),
      max_eq_left hx1, min_eq_left hx2, max_eq_left hy1, min_eq_left hy2]
    simp [pproj, PlayerState.update_shrine_buffs, hd]

/-- A state observed equal to one with no pending dash impulse has no
pending dash impulse. -/
theorem dashIsNone_of_posDash (pid : PlayerId) (s1 s2 : MatchState)
    (h : posDash pid s1 = posDash pid s2) (hd : dashIsNone s2 pid = true) :
    dashIsNone s1 pid = true := by
  rcases h1 : alookup pid s1.players with _ | q
  · simp only [dashIsNone, h1]
  · rcases h2 : alookup pid s2.players with _ | p
    · simp only [posDash, h1, h2, Option.map_some'] at h
      exact Option.noConfusion h
    · simp only [posDash, h1, h2, Option.map_some'] at h
      have h3 : pproj q = pproj p := by injection h
      have h4 : q.dash_velocity = p.dash_velocity := congrArg Prod.snd h3
      simp only [dashIsNone, h2] at hd
      simp only [dashIsNone, h1, h4]
      exact hd

/-- Draining the pending events does not touch the players. -/
theorem posDash_clear_pending (pid : PlayerId) (X : MatchState) :
    posDash pid { X with pending_events := [] } = posDash pid X := rfl

/-- One full tick under C7's hypotheses neither moves the tracked player
nor grants it a dash impulse. -/
theorem tick_posDash (pid : PlayerId) (s : MatchState)
    (inputs : List (PlayerId × InputFrame)) (cfg : MatchConfig)
    (hidle : ∀ q ∈ inputs, q.1 = pid → IdleNoFlags q.2)
    (hnoab : ∀ q ∈ inputs, q.1 ≠ pid → q.2.ability_pressed = false)
    (hmem : ∃ f, (pid, f) ∈ inputs)
    (hdash : dashIsNone s pid = true)
    (hbound : posInBoundsB s pid = true) :
    posDash pid (tickFn s inputs cfg).1 = posDash pid s := by
  rcases hph : s.phase with _ | ticks | _ | _
  · simp only [tickFn, hph]
  · simp only [tickFn, hph]
    split
    · rfl
    · rfl
  · simp only [tickFn, hph]
    have H : ∀ X : MatchState,
        posDash pid (check_end_conditions (process_active_abilities (process_shrines
          (maybe_spawn_runes (process_zone_damage (process_rune_collisions
            (process_player_collisions (update_arena_shrink X cfg))) cfg)
            cfg.rune_spawn) cfg.shrine)) TickResult.default).1
        = posDash pid X := by
      intro X
      exact (posDash_check_end pid _ _).trans
        ((posDash_process_active_abilities pid _).trans
          ((posDash_process_shrines pid _ _).trans
            ((posDash_maybe_spawn_runes pid _ _).trans
              ((posDash_process_zone_damage pid _ _).trans
                ((posDash_process_rune_collisions pid _).trans
                  ((posDash_process_player_collisions pid _).trans
                    (posDash_update_arena_shrink pid _ cfg)))))))
    refine Eq.trans (posDash_clear_pending pid _) ?_
    refine Eq.trans (H (update_physics (apply_inputs
      { s with tick := (s.tick + 1) % 4294967296, phase := MatchPhase.Playing } inputs))) ?_
    obtain ⟨ht, ha, hinv, hz⟩ := apply_inputs_spec pid
      { s with tick := (s.tick + 1) % 4294967296, phase := MatchPhase.Playing } inputs hidle hnoab hmem
    have hentry :
        (alookup pid (apply_inputs { s with tick := (s.tick + 1) % 4294967296, phase := MatchPhase.Playing }
            inputs).players = none
          ∧ alookup pid s.players = none)
        ∨ (∃ p, alookup pid s.players = some p ∧ p.alive = false
            ∧ alookup pid (apply_inputs { s with tick := (s.tick + 1) % 4294967296, phase := MatchPhase.Playing }
                inputs).players = some p)
        ∨ (∃ p, alookup pid s.players = some p ∧ p.alive = true
            ∧ p.dash_velocity = none
            ∧ alookup pid (apply_inputs { s with tick := (s.tick + 1) % 4294967296, phase := MatchPhase.Playing }
                inputs).players = some { p with velocity := FixedVec2.ZERO }) := by
      rcases hl : alookup pid s.players with _ | p
      · refine Or.inl ⟨?_, rfl⟩
        rcases hinv with hsame | ⟨p', hp', -, -⟩
        · exact hsame.trans hl
        · rw [show (alookup pid ({ s with tick := (s.tick + 1) % 4294967296, phase := MatchPhase.Playing } :
              MatchState).players) = none from hl] at hp'
          exact Option.noConfusion hp'
      · by_cases halp : p.alive = true
        · have hdn : p.dash_velocity = none := by
            have hb' := hdash
            simp only [dashIsNone, hl] at hb'
            exact eq_of_beq hb'
          exact Or.inr (Or.inr ⟨p, rfl, halp, hdn, hz p hl halp⟩)
        · have half : p.alive = false := by
            cases hpa : p.alive
            · rfl
            · exact absurd hpa halp
          refine Or.inr (Or.inl ⟨p, rfl, half, ?_⟩)
          rcases hinv with hsame | ⟨p', hp', halive', -⟩
          · exact hsame.trans hl
          · rw [show (alookup pid ({ s with tick := (s.tick + 1) % 4294967296, phase := MatchPhase.Playing } :
                MatchState).players) = some p from hl] at hp'
            have hpp : p' = p := by
              injection hp' with hh
              exact hh.symm
            subst hpp
            exact absurd halive' (by simp [half])
    simp only [posDash, update_physics]
    rw [alookup_map_snd]
    rcases hentry with ⟨h1n, h2n⟩ | ⟨p, hp, half, hq⟩ | ⟨p, hp, halp, hdn, hq⟩
    · rw [h1n, h2n]
      rfl
    · rw [hq, hp]
      simp only [Option.map_some']
      have hdead : physicsStep
          (apply_inputs { s with tick := (s.tick + 1) % 4294967296, phase := MatchPhase.Playing }
            inputs).current_arena_bounds.1
          (apply_inputs { s with tick := (s.tick + 1) % 4294967296, phase := MatchPhase.Playing }
            inputs).current_arena_bounds.2 p = p := by
        simp only [physicsStep]
        rw [if_pos half]
      rw [hdead]
    · rw [hq, hp]
      simp only [Option.map_some']
      have hbeq : (apply_inputs { s with tick := (s.tick + 1) % 4294967296, phase := MatchPhase.Playing }
          inputs).current_arena_bounds = s.current_arena_bounds := by
        simp only [MatchState.current_arena_bounds]
        rw [ha]
      rw [hbeq]
      have hb' := hbound
      simp only [posInBoundsB, hp] at hb'
      have hb4 := of_decide_eq_true hb'
      refine congrArg some (Eq.trans (physicsStep_pproj_idle s.current_arena_bounds.1
        s.current_arena_bounds.2 { p with velocity := FixedVec2.ZERO }
        ?_ ?_ ?_ ?_ rfl hdn hb4.1 hb4.2.1 hb4.2.2.1 hb4.2.2.2) rfl)
      · rw [show (s.current_arena_bounds).1
            = fixed_mul ARENA_HALF_WIDTH (FIXED_ONE - (s.arena_shrink >>> 1)) from rfl]
        exact (fixed_mul_range _ _).1
      · rw [show (s.current_arena_bounds).1
            = fixed_mul ARENA_HALF_WIDTH (FIXED_ONE - (s.arena_shrink >>> 1)) from rfl]
        exact (fixed_mul_range _ _).2
      · rw [show (s.current_arena_bounds).2
            = fixed_mul ARENA_HALF_HEIGHT (FIXED_ONE - (s.arena_shrink >>> 1)) from rfl]
        exact (fixed_mul_range _ _).1
      · rw [show (s.current_arena_bounds).2
            = fixed_mul ARENA_HALF_HEIGHT (FIXED_ONE - (s.arena_shrink >>> 1)) from rfl]
        exact (fixed_mul_range _ _).2
  · simp only [tickFn, hph]

/-- C7 amended: a player fed the idle sentinel every tick, with no other
player pressing an ability, no pending dash impulse, and a position
within the current arena bounds at the start of every tick, ends `n`
ticks at exactly its starting position and still has no dash impulse.
This refines the claim: the in-bounds condition must hold against the
current (shrinking) bounds at every tick, not only at the start —
`c7_counterexample` shows a boundary player displaced by the shrink
clamp with no input at all. -/
theorem c7_idle_position_fixed (s : MatchState) (pid : PlayerId)
    (inputs : List (PlayerId × InputFrame)) (cfg : MatchConfig) (n : Nat)
    (hidle : ∀ q ∈ inputs, q.1 = pid → IdleNoFlags q.2)
    (hnoab : ∀ q ∈ inputs, q.1 ≠ pid → q.2.ability_pressed = false)
    (hmem : ∃ f, (pid, f) ∈ inputs)
    (hdash : dashIsNone s pid = true)
    (hb : ∀ k, k < n → posInBoundsB (iterTick inputs cfg k s) pid = true) :
    posDash pid (iterTick inputs cfg n s) = posDash pid s := by
  induction n generalizing s hdash with
  | zero => rfl
  | succ n ih =>
      have h0 := tick_posDash pid s inputs cfg hidle hnoab hmem hdash
        (hb 0 (Nat.succ_pos n))
      have hdash2 : dashIsNone (tickFn s inputs cfg).1 pid = true :=
        dashIsNone_of_posDash pid _ _ h0 hdash
      have hb2 : ∀ k, k < n →
          posInBoundsB (iterTick inputs cfg k (tickFn s inputs cfg).1) pid = true :=
        fun k hk => hb (k + 1) (by omega)
      exact (ih (tickFn s inputs cfg).1 hdash2 hb2).trans h0

/-- Witness for C7 amended: the centre player of the C7 scenario stays
exactly in place over 10 ticks. -/
theorem c7_idle_position_fixed_witness :
    (∀ q ∈ c7Inputs, q.1 = idB → IdleNoFlags q.2)
    ∧ (∀ q ∈ c7Inputs, q.1 ≠ idB → q.2.ability_pressed = false)
    ∧ ((idB, idleInput) ∈ c7Inputs)
    ∧ dashIsNone c7State idB = true
    ∧ (∀ k, k < 10 →
        posInBoundsB (iterTick c7Inputs MatchConfig.default k c7State) idB = true)
    ∧ posDash idB (iterTick c7Inputs MatchConfig.default 10 c7State)
        = posDash idB c7State :=
  ⟨by decide, by decide, by decide, by decide, by decide,
    c7_idle_position_fixed c7State idB c7Inputs MatchConfig.default 10 (by decide)
      (by decide) ⟨idleInput, by decide⟩ (by decide) (by decide)⟩

end RuneRelic
